import Mathlib

/-!
Shallow embedding of the V4L2 Codec2 decode component
(`components/V4L2DecodeComponent.cpp`) and decoder (`components/V4L2Decoder.cpp`).

External collaborators (the V4L2 device, the video-frame pool, the Codec2
interface object and the NAL parser) are modelled as oracle parameters that
return the answers the external call would return; everything the two source
files themselves compute is translated directly.

Machine integers: `flags` fields are `uint32_t` bitmasks; they are modelled as
`Nat` with the bit operations `&&&` / `|||`, which agree with the C semantics
for the flag values used (all below 2^32, no arithmetic overflow occurs on
them in the translated code).
-/

namespace V4L2

/-- C2FrameData::flags_t bit values (from the external C2 headers). -/
def FLAG_DROP_FRAME : Nat := 1

/-- C2FrameData::FLAG_END_OF_STREAM. -/
def FLAG_END_OF_STREAM : Nat := 2

/-- C2FrameData::FLAG_CODEC_CONFIG. -/
def FLAG_CODEC_CONFIG : Nat := 2147483648

/-- c2_status_t values used by the translated code. -/
inductive C2Status
  | C2_OK
  | C2_BAD_STATE
  | C2_BAD_VALUE
  | C2_CORRUPTED
  | C2_NOT_FOUND
  | C2_OMITTED
  | C2_BLOCKING
deriving DecidableEq, Repr, Inhabited

/-- VideoDecoder::DecodeStatus. -/
inductive DecodeStatus
  | kOk
  | kAborted
  | kError
deriving DecidableEq, Repr, Inhabited

/-- V4L2DecodeComponent::ComponentState. -/
inductive CState
  | STOPPED
  | RUNNING
  | RELEASED
  | ERROR
deriving DecidableEq, Repr, Inhabited

/-- V4L2Decoder::State. -/
inductive DecoderState
  | Idle
  | Decoding
  | Draining
  | Error
deriving DecidableEq, Repr, Inhabited

/-- VideoCodec from common/VideoTypes.h. -/
inductive VideoCodec
  | H264
  | VP8
  | VP9
  | HEVC
deriving DecidableEq, Repr, Inhabited

/-- ui::Size: a width/height pair. -/
structure USize where
  width : Nat
  height : Nat
deriving DecidableEq, Repr, Inhabited

/-- v4l2_rect: signed left/top corner, unsigned width/height. -/
structure V4L2RectT where
  left : Int
  top : Int
  width : Nat
  height : Nat
deriving DecidableEq, Repr, Inhabited

/-- Android Rect given by its two corners, as built in getVisibleRect. -/
structure CRect where
  left : Int
  top : Int
  right : Int
  bottom : Int
deriving DecidableEq, Repr, Inhabited

/-- Modelled from the spec: `contains(Rect, Rect)` from common/Common.h (not
under src/) — the second rectangle lies inside the first. -/
def rectContains (a b : CRect) : Bool :=
  decide (a.left ≤ b.left ∧ a.top ≤ b.top ∧ b.right ≤ a.right ∧ b.bottom ≤ a.bottom)

/-- Modelled from the spec: `Rect::isEmpty` (not under src/) — a rectangle with
no interior. -/
def rectIsEmpty (r : CRect) : Bool :=
  decide (r.right ≤ r.left ∨ r.bottom ≤ r.top)

/-- Rect(codedSize.width, codedSize.height): the full coded-size rectangle. -/
def fullRect (codedSize : USize) : CRect :=
  ⟨0, 0, (codedSize.width : Int), (codedSize.height : Int)⟩

/-- Validation applied by getVisibleRect to the rectangle obtained from the
device: fall back to the full coded size when it is not contained in the coded
size or is empty (V4L2Decoder.cpp lines 716-729). -/
def checkRect (codedSize : USize) (vr : V4L2RectT) : CRect :=
  let rect : CRect := ⟨vr.left, vr.top, vr.left + (vr.width : Int), vr.top + (vr.height : Int)⟩
  if ¬ rectContains (fullRect codedSize) rect then fullRect codedSize
  else if rectIsEmpty rect then fullRect codedSize
  else rect

/-- V4L2Decoder::getVisibleRect (V4L2Decoder.cpp lines 690-730).  The two
oracle arguments are the result of VIDIOC_G_SELECTION(COMPOSE, CAPTURE) and of
VIDIOC_G_CROP: `none` when the ioctl fails, `some r` with the returned
rectangle otherwise. -/
def getVisibleRect (codedSize : USize) (gSelection : Option V4L2RectT)
    (gCrop : Option V4L2RectT) : CRect :=
  match gSelection with
  | some vr => checkRect codedSize vr
  | none =>
    match gCrop with
    | none => fullRect codedSize
    | some vr => checkRect codedSize vr

/-- frameIndexToBitstreamId: mask the frame index against 30 bits
(V4L2DecodeComponent.cpp lines 60-62). -/
def frameIndexToBitstreamId (frameIndex : Nat) : Nat :=
  frameIndex &&& 0x3FFFFFFF

/-- C2WorkOrdinalStruct: monotonically increasing frame index and timestamp. -/
structure C2Ordinal where
  frameIndex : Nat
  timestamp : Nat
deriving DecidableEq, Repr, Inhabited

/-- Payload of one input C2Buffer: the linear block reference (offset and size
into the shared dma-buf). -/
structure InBuf where
  offset : Nat
  size : Nat
deriving DecidableEq, Repr, Inhabited

/-- Input side of a work item (C2FrameData): flags, ordinal and the buffer
list, where a `none` entry models a null shared_ptr slot. -/
structure InputData where
  flags : Nat
  ordinal : C2Ordinal
  buffers : List (Option InBuf)
deriving DecidableEq, Repr, Inhabited

/-- One output C2Buffer: the wrapped graphic block id together with the color
aspects info attached to it, if any. -/
structure OutBuf where
  blockId : Nat
  aspects : Option Nat
deriving DecidableEq, Repr, Inhabited

/-- Output side of a worklet (C2FrameData): flags, ordinal and output
buffers. -/
structure OutputData where
  flags : Nat
  ordinal : C2Ordinal
  buffers : List OutBuf
deriving DecidableEq, Repr, Inhabited

/-- A worklet; only its output C2FrameData is touched by the translated
code. -/
structure Worklet where
  output : OutputData
deriving DecidableEq, Repr, Inhabited

/-- A C2Work item as used by the component. -/
structure C2Work where
  input : InputData
  worklets : List Worklet
  result : C2Status
  workletsProcessed : Nat
deriving DecidableEq, Repr, Inhabited

/-- Front worklet of a work item (`work.worklets.front()`); the source always
accesses a validated, single-worklet list. -/
def workletOutput (w : C2Work) : OutputData :=
  (w.worklets.headD default).output

/-- Replace the flags of the front worklet's output. -/
def setOutputFlags (w : C2Work) (flags : Nat) : C2Work :=
  { w with worklets :=
      match w.worklets with
      | [] => []
      | wl :: rest => { wl with output := { wl.output with flags := flags } } :: rest }

/-- Append a buffer to the front worklet's output buffer list. -/
def pushOutputBuffer (w : C2Work) (b : OutBuf) : C2Work :=
  { w with worklets :=
      match w.worklets with
      | [] => []
      | wl :: rest =>
        { wl with output := { wl.output with buffers := wl.output.buffers ++ [b] } } :: rest }

/-- Model of `work->input.buffers.front().reset()`: null the front entry. -/
def releaseInput (w : C2Work) : C2Work :=
  { w with input := { w.input with buffers :=
      match w.input.buffers with
      | [] => []
      | _ :: rest => none :: rest } }

/-- isWorkDone (V4L2DecodeComponent.cpp lines 104-122). -/
def isWorkDone (work : C2Work) : Bool :=
  if work.input.flags &&& FLAG_END_OF_STREAM ≠ 0 then false
  else
    let inputReleased : Bool := decide (work.input.buffers.head? = some none)
    let outputReturned : Bool := !(workletOutput work).buffers.isEmpty
    let ignoreOutput : Bool := decide (work.input.flags &&& FLAG_CODEC_CONFIG ≠ 0) ||
        decide ((workletOutput work).flags &&& FLAG_DROP_FRAME ≠ 0)
    inputReleased && (outputReturned || ignoreOutput)

/-- isNoShowFrameWork (V4L2DecodeComponent.cpp lines 124-136). -/
def isNoShowFrameWork (work : C2Work) (currOrdinal : C2Ordinal) : Bool :=
  let smallOrdinal : Bool := decide (work.input.ordinal.timestamp < currOrdinal.timestamp) &&
      decide (work.input.ordinal.frameIndex < currOrdinal.frameIndex)
  let outputReturned : Bool := !(workletOutput work).buffers.isEmpty
  let specialWork : Bool := decide (work.input.flags &&& FLAG_END_OF_STREAM ≠ 0) ||
      decide (work.input.flags &&& FLAG_CODEC_CONFIG ≠ 0) ||
      decide ((workletOutput work).flags &&& FLAG_DROP_FRAME ≠ 0)
  smallOrdinal && !outputReturned && !specialWork

/-- Association-list lookup keyed by bitstream id / buffer id (std::map
lookup; the claims do not depend on std::map's key-ordered iteration). -/
def alLookup {α : Type} : List (Nat × α) → Nat → Option α
  | [], _ => none
  | (k, v) :: rest, key => if k = key then some v else alLookup rest key

/-- Association-list erase of the first binding of a key (std::map::erase). -/
def alErase {α : Type} : List (Nat × α) → Nat → List (Nat × α)
  | [], _ => []
  | (k, v) :: rest, key => if k = key then rest else (k, v) :: alErase rest key

/-- Replace the binding of a key in place. -/
def alUpdate {α : Type} : List (Nat × α) → Nat → α → List (Nat × α)
  | [], _, _ => []
  | (k, v) :: rest, key, nv =>
    if k = key then (k, nv) :: rest else (k, v) :: alUpdate rest key nv

/-- std::map::insert: keeps the existing binding when the key is present. -/
def alInsert {α : Type} (l : List (Nat × α)) (key : Nat) (v : α) : List (Nat × α) :=
  if (alLookup l key).isSome then l else l ++ [(key, v)]

/-- ConstBitstreamBuffer handed to V4L2Decoder::decode: the bitstream id plus
the dma-buf slice (offset and size). -/
structure BitstreamBuf where
  id : Nat
  offset : Nat
  size : Nat
deriving DecidableEq, Repr, Inhabited

/-- Identity of a completion callback handed to the decoder: either
`BindOnce(&V4L2DecodeComponent::onDecodeDone, mWeakThis, bitstreamId)` or
`BindOnce(&V4L2DecodeComponent::onDrainDone, mWeakThis)`. -/
inductive DecodeCB
  | decodeDone (bid : Nat)
  | drainDone
deriving DecidableEq, Repr, Inhabited

/-- V4L2Decoder::DecodeRequest: a buffer (null for the drain sentinel) and the
completion callback. -/
structure DecodeRequest where
  buffer : Option BitstreamBuf
  decodeCb : DecodeCB
deriving DecidableEq, Repr, Inhabited

/-- Observable events emitted during execution: listener callbacks, device
commands, completion-callback invocations and tasks posted to the decoder
sequence.  `decoderCmd` records the input-queue queued-buffer count at the
instant the VIDIOC_DECODER_CMD ioctl is issued; `decDrainEntered` marks an
invocation of V4L2Decoder::drain. -/
inductive Ev
  | workDone (ws : List C2Work)
  | errorNb (code : C2Status)
  | cbRun (cb : DecodeCB) (st : DecodeStatus)
  | cbPosted (cb : DecodeCB) (st : DecodeStatus)
  | decoderCmd (start : Bool) (queuedAtIssue : Nat)
  | decDrainEntered
  | postPumpPending
  | postPumpDecode
  | postTryFetch
  | poolRequest
deriving DecidableEq, Repr, Inhabited

/-- kNumInputBuffers (V4L2Decoder.cpp line 26). -/
def kNumInputBuffers : Nat := 16

/-- kNumExtraOutputBuffers (V4L2Decoder.cpp line 28). -/
def kNumExtraOutputBuffers : Nat := 4

/-- kMaximumSupportedArea (V4L2DecodeComponent.cpp line 269). -/
def kMaximumSupportedArea : Nat := 4096 * 4096

/-- State of the V4L2DecodeComponent object (fields of the class that the
translated methods read or write). -/
structure CompState where
  componentState : CState
  mListener : Option Nat
  mPendingWorks : List C2Work
  mWorksAtDecoder : List (Nat × C2Work)
  mOutputBitstreamIds : List Nat
  mIsDraining : Bool
  mIsSecure : Bool
  codec : VideoCodec
  mCurrentColorAspects : Option Nat
  mPendingColorAspectsChange : Bool
  mPendingColorAspectsChangeFrameIndex : Nat
deriving DecidableEq, Repr, Inhabited

/-- State of the V4L2Decoder object.  The input queue holds kNumInputBuffers
slots of which `inputQueued` are currently queued to the device; the output
queue is tracked per slot (`outputQueuedIds`) because buffers are queued to
specific slot ids. -/
structure DecState where
  state : DecoderState
  mDecodeRequests : List DecodeRequest
  mPendingDecodeCbs : List (Nat × DecodeCB)
  mDrainCb : Option DecodeCB
  inputQueued : Nat
  outputAllocated : Nat
  outputQueuedIds : List Nat
  outputStreaming : Bool
  mFrameAtDevice : List (Nat × Nat)
  mBlockIdToV4L2Id : List (Nat × Nat)
  mVideoFramePool : Bool
  mMinNumOutputBuffers : Nat
  mCodedSize : USize
  mVisibleRect : CRect
deriving DecidableEq, Repr, Inhabited

/-- Combined state: the component owns the decoder and both run on the same
sequenced task runner. -/
structure Sys where
  comp : CompState
  dec : DecState
deriving DecidableEq, Repr, Inhabited

/-- V4L2Decoder::setState (V4L2Decoder.cpp lines 755-779): same-state is a
no-op, Error is sticky, and Draining is reachable only from Decoding. -/
def DecState.setState (d : DecState) (newState : DecoderState) : DecState :=
  if d.state = newState then d
  else if d.state = DecoderState.Error then d
  else
    let newState' :=
      if newState = DecoderState.Draining ∧ d.state ≠ DecoderState.Decoding then
        DecoderState.Error
      else newState
    { d with state := newState' }

/-- Oracle for the external collaborators: each field is the answer the
corresponding external call returns.  Fields are functions of the call
arguments where the argument can vary within one translated operation. -/
structure Oracle where
  decoderCmdOk : Bool → Bool
  planeSize : Nat
  qbufInOk : Nat → Bool
  qbufOutOk : Nat → Bool
  startPollingOk : Bool
  poolFetchAccepted : Bool
  parsedAspects : Option Nat
  configStatus : C2Status
  queriedAspects : Option Nat
  alive : Bool
  blockPoolStatus : C2Status
  poolCreateOk : Bool
  resChangePending : Bool
  gFmt : Option USize
  gCtrlMinBuffers : Option Nat
  setupOutputFormatOk : Bool
  gFmtAdjusted : Option USize
  allocOutputCount : Nat → Nat
  streamonOutputOk : Bool
  gSelection : Option V4L2RectT
  gCrop : Option V4L2RectT

/-- Result of one input-queue dequeueBuffer call inside serviceDeviceTask:
`fail` = the ioctl failed, `stop` = no buffer ready (nullptr), `ok bid` = a
buffer whose timestamp carries `bid` was dequeued. -/
inductive InDqEntry
  | fail
  | stop
  | ok (bid : Nat)
deriving DecidableEq, Repr, Inhabited

/-- Result of one output-queue dequeueBuffer call inside serviceDeviceTask. -/
inductive OutDqEntry
  | fail
  | stop
  | ok (bufferId : Nat) (bitstreamId : Nat) (bytesUsed : Nat) (isLast : Bool)
deriving DecidableEq, Repr, Inhabited

namespace V4L2DecodeComponent

/-- reportWork (V4L2DecodeComponent.cpp lines 694-707): deliver one finished
work to the listener; returns false when no listener is installed. -/
def reportWork (s : CompState) (work : C2Work) : Bool × List Ev :=
  match s.mListener with
  | none => (false, [])
  | some _ => (true, [Ev.workDone [work]])

/-- reportError (V4L2DecodeComponent.cpp lines 835-847): transition to ERROR
once and notify the listener. -/
def reportError (s : CompState) (error : C2Status) : CompState × List Ev :=
  if s.componentState = CState.ERROR then (s, [])
  else
    let s' := { s with componentState := CState.ERROR }
    match s.mListener with
    | none => (s', [])
    | some _ => (s', [Ev.errorNb error])

/-- reportWorkIfFinished (V4L2DecodeComponent.cpp lines 626-658).  Returns the
new state, the boolean the source returns, and the emitted events. -/
def reportWorkIfFinished (s : CompState) (bitstreamId : Nat) :
    CompState × Bool × List Ev :=
  if s.mIsDraining = true ∧ s.mWorksAtDecoder.length = 1 then (s, false, [])
  else
    match alLookup s.mWorksAtDecoder bitstreamId with
    | none => (s, true, [])
    | some work =>
      if ¬ isWorkDone work then (s, false, [])
      else
        let s' := { s with mWorksAtDecoder := alErase s.mWorksAtDecoder bitstreamId }
        let work := { work with
          result := C2Status.C2_OK, workletsProcessed := work.worklets.length }
        let work :=
          if (workletOutput work).flags &&& FLAG_DROP_FRAME ≠ 0 then setOutputFlags work 0
          else work
        let r := reportWork s' work
        (s', r.1, r.2)

/-- Loop body of pumpReportWork over the mOutputBitstreamIds queue; returns
the state, the remaining queue and the events. -/
def pumpReportLoop (s : CompState) : List Nat → CompState × List Nat × List Ev
  | [] => (s, [], [])
  | bid :: rest =>
    let r := reportWorkIfFinished s bid
    if r.2.1 then
      let r' := pumpReportLoop r.1 rest
      (r'.1, r'.2.1, r.2.2 ++ r'.2.2)
    else (r.1, bid :: rest, r.2.2)

/-- pumpReportWork (V4L2DecodeComponent.cpp lines 616-624): report finished
works in output-arrival order, stopping at the first unfinished one. -/
def pumpReportWork (s : CompState) : CompState × List Ev :=
  let r := pumpReportLoop s s.mOutputBitstreamIds
  ({ r.1 with mOutputBitstreamIds := r.2.1 }, r.2.2)

/-- onDecodeDone (V4L2DecodeComponent.cpp lines 514-549).  The source asserts
the work is present in mWorksAtDecoder; absence is modelled as a no-op. -/
def onDecodeDone (s : CompState) (bitstreamId : Nat) (status : DecodeStatus) :
    CompState × List Ev :=
  match alLookup s.mWorksAtDecoder bitstreamId with
  | none => (s, [])
  | some work =>
    match status with
    | DecodeStatus.kAborted =>
      let work := releaseInput work
      let work := setOutputFlags work ((workletOutput work).flags &&& FLAG_DROP_FRAME)
      let s := { s with
        mWorksAtDecoder := alUpdate s.mWorksAtDecoder bitstreamId work,
        mOutputBitstreamIds := s.mOutputBitstreamIds ++ [bitstreamId] }
      pumpReportWork s
    | DecodeStatus.kError => reportError s C2Status.C2_CORRUPTED
    | DecodeStatus.kOk =>
      let work := releaseInput work
      let s := { s with mWorksAtDecoder := alUpdate s.mWorksAtDecoder bitstreamId work }
      let s :=
        if work.input.flags &&& FLAG_CODEC_CONFIG ≠ 0 then
          { s with mOutputBitstreamIds := s.mOutputBitstreamIds ++ [bitstreamId] }
        else s
      pumpReportWork s

/-- Marking pass of detectNoShowFrameWorksAndReportIfFinished
(V4L2DecodeComponent.cpp lines 592-610): set DROP_FRAME on every no-show
work. -/
def markNoShowWorks (works : List (Nat × C2Work)) (currOrdinal : C2Ordinal) :
    List (Nat × C2Work) :=
  works.map fun kv =>
    if isNoShowFrameWork kv.2 currOrdinal then (kv.1, setOutputFlags kv.2 FLAG_DROP_FRAME)
    else kv

/-- Ids collected by the marking pass, reported after the loop. -/
def noShowFrameBitstreamIds (works : List (Nat × C2Work)) (currOrdinal : C2Ordinal) :
    List Nat :=
  (works.filter fun kv => isNoShowFrameWork kv.2 currOrdinal).map Prod.fst

/-- Reporting pass: call reportWorkIfFinished for each collected id
(V4L2DecodeComponent.cpp line 613). -/
def reportIdsLoop (s : CompState) : List Nat → CompState × List Ev
  | [] => (s, [])
  | bid :: rest =>
    let r := reportWorkIfFinished s bid
    let r' := reportIdsLoop r.1 rest
    (r'.1, r.2.2 ++ r'.2)

/-- detectNoShowFrameWorksAndReportIfFinished (V4L2DecodeComponent.cpp lines
586-614). -/
def detectNoShowFrameWorksAndReportIfFinished (s : CompState) (currOrdinal : C2Ordinal) :
    CompState × List Ev :=
  let ids := noShowFrameBitstreamIds s.mWorksAtDecoder currOrdinal
  let s := { s with mWorksAtDecoder := markNoShowWorks s.mWorksAtDecoder currOrdinal }
  reportIdsLoop s ids

/-- onOutputFrameReady (V4L2DecodeComponent.cpp lines 551-584).  The frame is
given by the bitstream id stamped on it and its graphic-block id; the
color-aspects re-query goes through the oracle. -/
def onOutputFrameReady (s : CompState) (o : Oracle) (bitstreamId : Nat)
    (blockId : Nat) : CompState × List Ev :=
  match alLookup s.mWorksAtDecoder bitstreamId with
  | none => reportError s C2Status.C2_CORRUPTED
  | some work =>
    let s :=
      if s.mPendingColorAspectsChange = true ∧
          s.mPendingColorAspectsChangeFrameIndex ≤ work.input.ordinal.frameIndex then
        { s with mCurrentColorAspects := o.queriedAspects, mPendingColorAspectsChange := false }
      else s
    let buffer : OutBuf := { blockId := blockId, aspects := s.mCurrentColorAspects }
    let work := pushOutputBuffer work buffer
    let s := { s with mWorksAtDecoder := alUpdate s.mWorksAtDecoder bitstreamId work }
    let r :=
      if s.codec = VideoCodec.VP8 ∨ s.codec = VideoCodec.VP9 then
        detectNoShowFrameWorksAndReportIfFinished s work.input.ordinal
      else (s, [])
    let s := { r.1 with mOutputBitstreamIds := r.1.mOutputBitstreamIds ++ [bitstreamId] }
    let r' := pumpReportWork s
    (r'.1, r.2 ++ r'.2)

/-- reportAbandonedWorks (V4L2DecodeComponent.cpp lines 738-767): drain both
pending sets, mark every work NOT_FOUND with its input released, and emit them
in one batch. -/
def reportAbandonedWorks (s : CompState) : CompState × List Ev :=
  let abandonedWorks := s.mPendingWorks ++ s.mWorksAtDecoder.map Prod.snd
  let s := { s with mPendingWorks := [], mWorksAtDecoder := [] }
  let abandonedWorks := abandonedWorks.map fun w =>
    releaseInput { w with result := C2Status.C2_NOT_FOUND }
  if abandonedWorks.isEmpty then (s, [])
  else
    match s.mListener with
    | none => (s, [])
    | some _ => (s, [Ev.workDone abandonedWorks])

/-- Search for the EOS work in mWorksAtDecoder (std::find_if over the map in
V4L2DecodeComponent.cpp lines 664-667). -/
def findEOSWork : List (Nat × C2Work) → Option (Nat × C2Work)
  | [] => none
  | (k, v) :: rest =>
    if v.input.flags &&& FLAG_END_OF_STREAM ≠ 0 then some (k, v) else findEOSWork rest

/-- reportEOSWork (V4L2DecodeComponent.cpp lines 660-692). -/
def reportEOSWork (s : CompState) : CompState × Bool × List Ev :=
  match findEOSWork s.mWorksAtDecoder with
  | none => (s, false, [])
  | some (bid, eosWork) =>
    let s := { s with mWorksAtDecoder := alErase s.mWorksAtDecoder bid }
    let eosWork := { eosWork with
      result := C2Status.C2_OK, workletsProcessed := eosWork.worklets.length }
    let eosWork := setOutputFlags eosWork FLAG_END_OF_STREAM
    let eosWork := if eosWork.input.buffers.isEmpty then eosWork else releaseInput eosWork
    let r :=
      if s.mWorksAtDecoder.isEmpty then (s, ([] : List Ev))
      else reportAbandonedWorks s
    let r' := reportWork r.1 eosWork
    (r.1, r'.1, r.2 ++ r'.2)

/-- onDrainDone (V4L2DecodeComponent.cpp lines 810-833). -/
def onDrainDone (s : CompState) (status : DecodeStatus) : CompState × List Ev :=
  match status with
  | DecodeStatus.kAborted => (s, [])
  | DecodeStatus.kError => reportError s C2Status.C2_CORRUPTED
  | DecodeStatus.kOk =>
    let s := { s with mIsDraining := false }
    let r := reportEOSWork s
    if r.2.1 then (r.1, r.2.2 ++ [Ev.postPumpPending])
    else
      let r' := reportError r.1 C2Status.C2_CORRUPTED
      (r'.1, r.2.2 ++ r'.2)

/-- Invoke a completion callback bound to the component: dispatch to
onDecodeDone or onDrainDone, recording the invocation in the trace. -/
def runCb (s : CompState) (cb : DecodeCB) (status : DecodeStatus) :
    CompState × List Ev :=
  match cb with
  | DecodeCB.decodeDone bid =>
    let r := onDecodeDone s bid status
    (r.1, Ev.cbRun cb status :: r.2)
  | DecodeCB.drainDone =>
    let r := onDrainDone s status
    (r.1, Ev.cbRun cb status :: r.2)

/-- setListener_vb (V4L2DecodeComponent.cpp lines 352-379).  Whether the
listener is installed directly or via the posted setListenerTask, the effect
on this state is the same assignment. -/
def setListener_vb (s : CompState) (listener : Option Nat) (mayBlock : Bool) :
    CompState × C2Status :=
  if s.componentState = CState.RELEASED ∨
      (s.componentState = CState.RUNNING ∧ listener ≠ none) then
    (s, C2Status.C2_BAD_STATE)
  else if s.componentState = CState.RUNNING ∧ mayBlock ≠ true then
    (s, C2Status.C2_BLOCKING)
  else
    ({ s with mListener := listener }, C2Status.C2_OK)

/-- getVideoFramePool (V4L2DecodeComponent.cpp lines 256-290).  `o.alive`
models the weak_from_this().lock() check, `o.blockPoolStatus` the
GetCodec2BlockPool call and `o.poolCreateOk` VideoFramePool::Create.  The
`getArea` overflow check is subsumed by the exact Nat product. -/
def getVideoFramePool (s : CompState) (o : Oracle) (size : USize)
    (_numBuffers : Nat) : CompState × Option Unit × List Ev :=
  if o.alive ≠ true then (s, none, [])
  else if kMaximumSupportedArea < size.width * size.height then
    let r := reportError s C2Status.C2_BAD_VALUE
    (r.1, none, r.2)
  else if o.blockPoolStatus ≠ C2Status.C2_OK then
    let r := reportError s o.blockPoolStatus
    (r.1, none, r.2)
  else if o.poolCreateOk then (s, some (), [])
  else (s, none, [])

end V4L2DecodeComponent

namespace V4L2Decoder

/-- V4L2Decoder::onError (V4L2Decoder.cpp lines 747-753): latch the Error
state and run the error callback, which the component binds to
`reportError(C2_CORRUPTED)` (V4L2DecodeComponent.cpp lines 239-240). -/
def onError (s : Sys) : Sys × List Ev :=
  let d := s.dec.setState DecoderState.Error
  let r := V4L2DecodeComponent.reportError s.comp C2Status.C2_CORRUPTED
  (⟨r.1, d⟩, r.2)

/-- sendV4L2DecoderCmd (V4L2Decoder.cpp lines 732-745): issue the
VIDIOC_DECODER_CMD ioctl (START when `start`, STOP otherwise).  The event
records the input-queue queued-buffer count at the instant of issue. -/
def sendV4L2DecoderCmd (s : Sys) (o : Oracle) (start : Bool) : Bool × List Ev :=
  (o.decoderCmdOk start, [Ev.decoderCmd start s.dec.inputQueued])

/-- Replace the decode-request queue. -/
def setRequests (s : Sys) (reqs : List DecodeRequest) : Sys :=
  { s with dec := { s.dec with mDecodeRequests := reqs } }

/-- Loop of pumpDecodeRequest (V4L2Decoder.cpp lines 247-313) over the
decode-request queue.  The argument list is the current mDecodeRequests
content; the returned state carries the remaining queue. -/
def pumpDecodeLoop (o : Oracle) : List DecodeRequest → Sys → Sys × List Ev
  | [], s => (setRequests s [], [])
  | req :: rest, s =>
    match req.buffer with
    | none =>
      if s.dec.inputQueued > 0 then (setRequests s (req :: rest), [])
      else
        let s := setRequests s rest
        let c := sendV4L2DecoderCmd s o false
        if ¬ c.1 then
          let r := V4L2DecodeComponent.runCb s.comp req.decodeCb DecodeStatus.kError
          let r' := onError { s with comp := r.1 }
          (r'.1, c.2 ++ r.2 ++ r'.2)
        else
          let s := { s with dec := { s.dec with mDrainCb := some req.decodeCb } }
          ({ s with dec := s.dec.setState DecoderState.Draining }, c.2)
    | some buf =>
      if kNumInputBuffers ≤ s.dec.inputQueued then (setRequests s (req :: rest), [])
      else
        let s := setRequests s rest
        if o.planeSize < buf.size then onError s
        else if ¬ o.qbufInOk buf.id then onError s
        else
          let s := { s with dec := { s.dec with
            inputQueued := s.dec.inputQueued + 1,
            mPendingDecodeCbs := alInsert s.dec.mPendingDecodeCbs buf.id req.decodeCb } }
          pumpDecodeLoop o rest s

/-- pumpDecodeRequest (V4L2Decoder.cpp lines 241-314). -/
def pumpDecodeRequest (s : Sys) (o : Oracle) : Sys × List Ev :=
  if s.dec.state ≠ DecoderState.Decoding then (s, [])
  else pumpDecodeLoop o s.dec.mDecodeRequests s

/-- decode (V4L2Decoder.cpp lines 197-214). -/
def decode (s : Sys) (buf : BitstreamBuf) (cb : DecodeCB) (o : Oracle) :
    Sys × List Ev :=
  if s.dec.state = DecoderState.Error then (s, [Ev.cbPosted cb DecodeStatus.kError])
  else
    let d := if s.dec.state = DecoderState.Idle then s.dec.setState DecoderState.Decoding
             else s.dec
    let d := { d with mDecodeRequests := d.mDecodeRequests ++ [⟨some buf, cb⟩] }
    pumpDecodeRequest { s with dec := d } o

/-- drain (V4L2Decoder.cpp lines 216-239). -/
def drain (s : Sys) (cb : DecodeCB) (o : Oracle) : Sys × List Ev :=
  match s.dec.state with
  | DecoderState.Idle => (s, [Ev.decDrainEntered, Ev.cbPosted cb DecodeStatus.kOk])
  | DecoderState.Decoding =>
    let d := { s.dec with mDecodeRequests := s.dec.mDecodeRequests ++ [⟨none, cb⟩] }
    let r := pumpDecodeRequest { s with dec := d } o
    (r.1, Ev.decDrainEntered :: r.2)
  | DecoderState.Draining => (s, [Ev.decDrainEntered, Ev.cbPosted cb DecodeStatus.kError])
  | DecoderState.Error => (s, [Ev.decDrainEntered, Ev.cbPosted cb DecodeStatus.kError])

/-- tryFetchVideoFrame (V4L2Decoder.cpp lines 579-598): request one frame from
the pool when an output slot is free; `o.poolFetchAccepted` is false when the
pool's previous callback is still running. -/
def tryFetchVideoFrame (s : Sys) (o : Oracle) : Sys × List Ev :=
  if s.dec.mVideoFramePool ≠ true then onError s
  else if s.dec.outputAllocated ≤ s.dec.outputQueuedIds.length then (s, [])
  else if o.poolFetchAccepted then (s, [Ev.poolRequest])
  else (s, [])

/-- Abort loop of flush (V4L2Decoder.cpp lines 330-333): run every pending
decode callback with kAborted. -/
def flushCbsLoop : List (Nat × DecodeCB) → Sys → Sys × List Ev
  | [], s => (s, [])
  | (_, cb) :: rest, s =>
    let r := V4L2DecodeComponent.runCb s.comp cb DecodeStatus.kAborted
    let r' := flushCbsLoop rest { s with comp := r.1 }
    (r'.1, r.2 ++ r'.2)

/-- flush (V4L2Decoder.cpp lines 316-366). -/
def flush (s : Sys) (o : Oracle) : Sys × List Ev :=
  if s.dec.state = DecoderState.Idle then (s, [])
  else if s.dec.state = DecoderState.Error then (s, [])
  else
    let r := flushCbsLoop s.dec.mPendingDecodeCbs s
    let s := { r.1 with dec := { r.1.dec with mPendingDecodeCbs := [] } }
    let rDrain :=
      match s.dec.mDrainCb with
      | some cb =>
        let rc := V4L2DecodeComponent.runCb s.comp cb DecodeStatus.kAborted
        ((⟨rc.1, { s.dec with mDrainCb := none }⟩ : Sys), rc.2)
      | none => (s, [])
    let s := rDrain.1
    let s : Sys := { s with dec := { s.dec with
      outputQueuedIds := [], mFrameAtDevice := [], inputQueued := 0 } }
    let rFetch := if s.dec.mVideoFramePool then tryFetchVideoFrame s o else (s, [])
    let s := rFetch.1
    if ¬ o.startPollingOk then
      let r' := onError s
      (r'.1, r.2 ++ rDrain.2 ++ rFetch.2 ++ r'.2)
    else
      ({ s with dec := s.dec.setState DecoderState.Idle },
       r.2 ++ rDrain.2 ++ rFetch.2)

/-- onVideoFrameReady (V4L2Decoder.cpp lines 600-657): `frameWithBlockId`
carries the block id of the delivered frame, `none` models a null optional. -/
def onVideoFrameReady (s : Sys) (frameWithBlockId : Option Nat) (o : Oracle) :
    Sys × List Ev :=
  match frameWithBlockId with
  | none => onError s
  | some blockId =>
    let d := s.dec
    let slotFree : Nat → Bool := fun v =>
      decide (v < d.outputAllocated) && !(d.outputQueuedIds.contains v)
    let r :=
      match alLookup d.mBlockIdToV4L2Id blockId with
      | some v4l2Id => (d, if slotFree v4l2Id then some v4l2Id else none)
      | none =>
        if d.mBlockIdToV4L2Id.length < d.outputAllocated then
          let v4l2Id := d.mBlockIdToV4L2Id.length
          ({ d with mBlockIdToV4L2Id := d.mBlockIdToV4L2Id ++ [(blockId, v4l2Id)] },
           if slotFree v4l2Id then some v4l2Id else none)
        else (d, none)
    let s := { s with dec := r.1 }
    match r.2 with
    | none => onError s
    | some v4l2Id =>
      if ¬ o.qbufOutOk v4l2Id then onError s
      else if (alLookup s.dec.mFrameAtDevice v4l2Id).isSome then onError s
      else
        let d := { s.dec with
          outputQueuedIds := s.dec.outputQueuedIds ++ [v4l2Id],
          mFrameAtDevice := s.dec.mFrameAtDevice ++ [(v4l2Id, blockId)] }
        tryFetchVideoFrame { s with dec := d } o

/-- changeResolution (V4L2Decoder.cpp lines 499-559).  The boolean result is
the source's return value; `false` makes serviceDeviceTask run onError. -/
def changeResolution (s : Sys) (o : Oracle) : Sys × Bool × List Ev :=
  match o.gFmt, o.gCtrlMinBuffers with
  | some _, some minBufs =>
    let numOutputBuffers := max (minBufs + kNumExtraOutputBuffers) s.dec.mMinNumOutputBuffers
    if ¬ o.setupOutputFormatOk then (s, false, [])
    else
      match o.gFmtAdjusted with
      | none => (s, false, [])
      | some adj =>
        let d := { s.dec with
          mCodedSize := adj, mVisibleRect := getVisibleRect adj o.gSelection o.gCrop }
        let s : Sys := { s with dec := d }
        if adj.width = 0 ∨ adj.height = 0 then (s, false, [])
        else
          let d := { s.dec with
            outputStreaming := false, outputQueuedIds := [], outputAllocated := 0,
            mFrameAtDevice := [], mBlockIdToV4L2Id := [] }
          let alloc := o.allocOutputCount numOutputBuffers
          if alloc = 0 then ({ s with dec := d }, false, [])
          else
            let d := { d with outputAllocated := alloc }
            if ¬ o.streamonOutputOk then ({ s with dec := d }, false, [])
            else
              let d := { d with outputStreaming := true, mVideoFramePool := false }
              let rp := V4L2DecodeComponent.getVideoFramePool s.comp o adj alloc
              match rp.2.1 with
              | none => ((⟨rp.1, d⟩ : Sys), false, rp.2.2)
              | some _ =>
                let d := { d with mVideoFramePool := true }
                let rf := tryFetchVideoFrame ⟨rp.1, d⟩ o
                (rf.1, true, rp.2.2 ++ rf.2)
  | _, _ => (s, false, [])

/-- Input-queue drain loop of serviceDeviceTask (V4L2Decoder.cpp lines
381-405).  Returns (state, inputDequeued, abortedByError, events). -/
def serviceInLoop : List InDqEntry → Sys → Sys × Bool × Bool × List Ev
  | [], s => (s, false, false, [])
  | e :: rest, s =>
    if s.dec.inputQueued = 0 then (s, false, false, [])
    else
      match e with
      | InDqEntry.fail =>
        let r := onError s
        (r.1, false, true, r.2)
      | InDqEntry.stop => (s, false, false, [])
      | InDqEntry.ok bid =>
        let s : Sys := { s with dec := { s.dec with inputQueued := s.dec.inputQueued - 1 } }
        match alLookup s.dec.mPendingDecodeCbs bid with
        | none =>
          let r := serviceInLoop rest s
          (r.1, true, r.2.2.1, r.2.2.2)
        | some cb =>
          let s : Sys := { s with
            dec := { s.dec with mPendingDecodeCbs := alErase s.dec.mPendingDecodeCbs bid } }
          let rc := V4L2DecodeComponent.runCb s.comp cb DecodeStatus.kOk
          let r := serviceInLoop rest { s with comp := rc.1 }
          (r.1, true, r.2.2.1, rc.2 ++ r.2.2.2)

/-- Output-queue drain loop of serviceDeviceTask (V4L2Decoder.cpp lines
407-462). -/
def serviceOutLoop (o : Oracle) : List OutDqEntry → Sys → Sys × Bool × Bool × List Ev
  | [], s => (s, false, false, [])
  | e :: rest, s =>
    if s.dec.outputQueuedIds.isEmpty then (s, false, false, [])
    else
      match e with
      | OutDqEntry.fail =>
        let r := onError s
        (r.1, false, true, r.2)
      | OutDqEntry.stop => (s, false, false, [])
      | OutDqEntry.ok bufferId bitstreamId bytesUsed isLast =>
        let s : Sys := { s with
          dec := { s.dec with outputQueuedIds := s.dec.outputQueuedIds.erase bufferId } }
        match alLookup s.dec.mFrameAtDevice bufferId with
        | none =>
          -- The source asserts presence (ALOG_ASSERT); an absent frame is
          -- modelled as skipping this dequeue.
          let r := serviceOutLoop o rest s
          (r.1, true, r.2.2.1, r.2.2.2)
        | some frame =>
          let s : Sys := { s with
            dec := { s.dec with mFrameAtDevice := alErase s.dec.mFrameAtDevice bufferId } }
          let rDeliver :=
            if 0 < bytesUsed then
              let rc := V4L2DecodeComponent.onOutputFrameReady s.comp o bitstreamId frame
              (({ s with comp := rc.1 } : Sys), false, rc.2)
            else
              if ¬ o.qbufOutOk bufferId then
                let r := onError s
                (r.1, true, r.2)
              else
                (({ s with dec := { s.dec with
                    outputQueuedIds := s.dec.outputQueuedIds ++ [bufferId],
                    mFrameAtDevice := s.dec.mFrameAtDevice ++ [(bufferId, frame)] } } : Sys),
                 false, [])
          if rDeliver.2.1 then (rDeliver.1, false, true, rDeliver.2.2)
          else
            let s := rDeliver.1
            let rLast :=
              match s.dec.mDrainCb with
              | some cb =>
                if isLast then
                  let c := sendV4L2DecoderCmd s o true
                  let rc := V4L2DecodeComponent.runCb s.comp cb DecodeStatus.kOk
                  let s : Sys := ⟨rc.1, ({ s.dec with mDrainCb := none }).setState DecoderState.Idle⟩
                  (s, c.2 ++ rc.2)
                else (s, [])
              | none => (s, [])
            let r := serviceOutLoop o rest rLast.1
            (r.1, true, r.2.2.1, rDeliver.2.2 ++ rLast.2 ++ r.2.2.2)

/-- serviceDeviceTask (V4L2Decoder.cpp lines 368-482).  `inDq`/`outDq` in the
oracle list the successive dequeueBuffer answers; `event` is the argument of
the task, `o.resChangePending` the result of dequeueResolutionChangeEvent. -/
def serviceDeviceTask (s : Sys) (event : Bool) (inDq : List InDqEntry)
    (outDq : List OutDqEntry) (o : Oracle) : Sys × List Ev :=
  if s.dec.state = DecoderState.Error then (s, [])
  else
    let rIn := serviceInLoop inDq s
    if rIn.2.2.1 then (rIn.1, rIn.2.2.2)
    else
      let rOut := serviceOutLoop o outDq rIn.1
      if rOut.2.2.1 then (rOut.1, rIn.2.2.2 ++ rOut.2.2.2)
      else
        let rEv :=
          if event ∧ o.resChangePending then
            let rc := changeResolution rOut.1 o
            if rc.2.1 then (rc.1, false, rc.2.2)
            else
              let re := onError rc.1
              (re.1, true, rc.2.2 ++ re.2)
          else (rOut.1, false, [])
        if rEv.2.1 then (rEv.1, rIn.2.2.2 ++ rOut.2.2.2 ++ rEv.2.2)
        else
          let posts := (if rIn.2.1 then [Ev.postPumpDecode] else []) ++
              (if rOut.2.1 then [Ev.postTryFetch] else [])
          (rEv.1, rIn.2.2.2 ++ rOut.2.2.2 ++ rEv.2.2 ++ posts)

end V4L2Decoder

namespace V4L2DecodeComponent

/-- Replace the pending-work queue of the component. -/
def setPendingWorks (s : Sys) (ws : List C2Work) : Sys :=
  { s with comp := { s.comp with mPendingWorks := ws } }

/-- Body of one iteration of pumpPendingWorks (V4L2DecodeComponent.cpp lines
454-510): insert the work at the decoder, hand its buffer to the decoder
(parsing color aspects on CSD works for non-secure H.264 first), start a drain
on EOS, and directly report empty CSD works.  The boolean is true when the
iteration hit the color-aspects config error and the loop must return. -/
def pumpDecodePart (o : Oracle) (pendingWork : C2Work) (bitstreamId : Nat) (s : Sys) :
    Sys × Bool × List Ev :=
  if pendingWork.input.buffers.head? = some none then (s, false, ([] : List Ev))
  else
    let rAspects :=
      if pendingWork.input.flags &&& FLAG_CODEC_CONFIG ≠ 0 ∧ s.comp.mIsSecure = false ∧
          s.comp.codec = VideoCodec.H264 then
        match o.parsedAspects with
        | some _ =>
          if o.configStatus ≠ C2Status.C2_OK then
            let re := reportError s.comp o.configStatus
            ((({ s with comp := re.1 }) : Sys), true, re.2)
          else
            ((({ s with comp := { s.comp with
                mPendingColorAspectsChange := true,
                mPendingColorAspectsChangeFrameIndex :=
                  pendingWork.input.ordinal.frameIndex } }) : Sys), false, ([] : List Ev))
        | none => (s, false, ([] : List Ev))
      else (s, false, ([] : List Ev))
    if rAspects.2.1 then rAspects
    else
      let blk := (pendingWork.input.buffers.head?.getD none).getD default
      let rd := V4L2Decoder.decode rAspects.1
        ⟨bitstreamId, blk.offset, blk.size⟩ (DecodeCB.decodeDone bitstreamId) o
      (rd.1, false, rAspects.2.2 ++ rd.2)

def pumpPendingOne (o : Oracle) (pendingWork : C2Work) (s : Sys) : Sys × Bool × List Ev :=
  let bitstreamId := frameIndexToBitstreamId pendingWork.input.ordinal.frameIndex
  let s : Sys := { s with comp := { s.comp with
    mWorksAtDecoder := alInsert s.comp.mWorksAtDecoder bitstreamId pendingWork } }
  let rDec := pumpDecodePart o pendingWork bitstreamId s
  if rDec.2.1 then rDec
  else
    let rEOS :=
      if pendingWork.input.flags &&& FLAG_END_OF_STREAM ≠ 0 then
        let rd := V4L2Decoder.drain rDec.1 DecodeCB.drainDone o
        ((({ rd.1 with comp := { rd.1.comp with mIsDraining := true } }) : Sys), rd.2)
      else (rDec.1, ([] : List Ev))
    let rCSD :=
      if pendingWork.input.flags &&& FLAG_CODEC_CONFIG ≠ 0 ∧
          pendingWork.input.buffers.head? = some none then
        let rr := reportWorkIfFinished rEOS.1.comp bitstreamId
        ((({ rEOS.1 with comp := rr.1 }) : Sys), rr.2.2)
      else (rEOS.1, ([] : List Ev))
    (rCSD.1, false, rDec.2.2 ++ rEOS.2 ++ rCSD.2)

/-- Loop of pumpPendingWorks (V4L2DecodeComponent.cpp lines 453-511) over the
pending-work queue; the argument list is the current mPendingWorks content. -/
def pumpPendingLoop (o : Oracle) : List C2Work → Sys → Sys × List Ev
  | [], s => (setPendingWorks s [], [])
  | pendingWork :: rest, s =>
    if s.comp.mIsDraining then (setPendingWorks s (pendingWork :: rest), [])
    else
      let r1 := pumpPendingOne o pendingWork (setPendingWorks s rest)
      if r1.2.1 then (r1.1, r1.2.2)
      else
        let r := pumpPendingLoop o rest r1.1
        (r.1, r1.2.2 ++ r.2)

/-- pumpPendingWorks (V4L2DecodeComponent.cpp lines 443-512). -/
def pumpPendingWorks (s : Sys) (o : Oracle) : Sys × List Ev :=
  if s.comp.componentState ≠ CState.RUNNING then (s, [])
  else pumpPendingLoop o s.comp.mPendingWorks s

/-- Reset of the worklet output performed by queueTask (V4L2DecodeComponent.cpp
lines 421-423): clear flags and buffers, copy the input ordinal. -/
def resetWorkletOutput (w : C2Work) : C2Work :=
  { w with worklets :=
      match w.worklets with
      | [] => []
      | wl :: rest =>
        { wl with output := { flags := 0, ordinal := w.input.ordinal, buffers := [] } } :: rest }

/-- queueTask (V4L2DecodeComponent.cpp lines 408-441). -/
def queueTask (s : Sys) (o : Oracle) (work : C2Work) : Sys × List Ev :=
  if work.worklets.length ≠ 1 ∨ 1 < work.input.buffers.length then
    let work := { work with result := C2Status.C2_CORRUPTED }
    let r := reportWork s.comp work
    (s, r.2)
  else
    let work := resetWorkletOutput work
    if work.input.buffers.isEmpty then
      if work.input.flags &&& FLAG_END_OF_STREAM = 0 ∧
          work.input.flags &&& FLAG_CODEC_CONFIG = 0 then
        let r := reportError s.comp C2Status.C2_BAD_VALUE
        (({ s with comp := r.1 } : Sys), r.2)
      else
        let work := { work with input := { work.input with buffers := [none] } }
        let s := setPendingWorks s (s.comp.mPendingWorks ++ [work])
        pumpPendingWorks s o
    else
      let s := setPendingWorks s (s.comp.mPendingWorks ++ [work])
      pumpPendingWorks s o

/-- flushTask (V4L2DecodeComponent.cpp lines 727-736). -/
def flushTask (s : Sys) (o : Oracle) : Sys × List Ev :=
  let r := V4L2Decoder.flush s o
  let ra := reportAbandonedWorks r.1.comp
  let c := { ra.1 with mIsDraining := false }
  (({ r.1 with comp := c } : Sys), r.2 ++ ra.2)

/-- Setting the END_OF_STREAM flag on the last queued pending work
(V4L2DecodeComponent.cpp lines 796-800). -/
def setLastPendingEOS : List C2Work → List C2Work
  | [] => []
  | [w] => [{ w with input := { w.input with
      flags := w.input.flags ||| FLAG_END_OF_STREAM } }]
  | w :: rest => w :: setLastPendingEOS rest

/-- drainTask (V4L2DecodeComponent.cpp lines 792-808). -/
def drainTask (s : Sys) (o : Oracle) : Sys × List Ev :=
  if s.comp.mPendingWorks.isEmpty then
    if s.comp.mWorksAtDecoder.isEmpty then (s, [])
    else
      let r := V4L2Decoder.drain s DecodeCB.drainDone o
      (({ r.1 with comp := { r.1.comp with mIsDraining := true } } : Sys), r.2)
  else
    (setPendingWorks s (setLastPendingEOS s.comp.mPendingWorks), [])

end V4L2DecodeComponent

/-- One task executed on the decoder sequence: the client-triggered tasks, the
device-service tick, the pool completion and the posted callbacks/tasks.
An execution of the system is a list of these. -/
inductive SysOp
  | queueOne (w : C2Work)
  | drainWithEOS
  | flushComp
  | pumpPending
  | pumpDecode
  | tryFetch
  | serviceDevice (event : Bool) (inDq : List InDqEntry) (outDq : List OutDqEntry)
  | frameReady (blockId : Option Nat)
  | postedCb (cb : DecodeCB) (st : DecodeStatus)

/-- Execute one task on the decoder sequence. -/
def runOp (op : SysOp) (s : Sys) (o : Oracle) : Sys × List Ev :=
  match op with
  | SysOp.queueOne w => V4L2DecodeComponent.queueTask s o w
  | SysOp.drainWithEOS => V4L2DecodeComponent.drainTask s o
  | SysOp.flushComp => V4L2DecodeComponent.flushTask s o
  | SysOp.pumpPending => V4L2DecodeComponent.pumpPendingWorks s o
  | SysOp.pumpDecode => V4L2Decoder.pumpDecodeRequest s o
  | SysOp.tryFetch => V4L2Decoder.tryFetchVideoFrame s o
  | SysOp.serviceDevice event inDq outDq => V4L2Decoder.serviceDeviceTask s event inDq outDq o
  | SysOp.frameReady b => V4L2Decoder.onVideoFrameReady s b o
  | SysOp.postedCb cb st =>
    let r := V4L2DecodeComponent.runCb s.comp cb st
    (({ s with comp := r.1 } : Sys), r.2)

/-- Execute a sequence of tasks, concatenating the emitted events. -/
def runOps : List SysOp → Sys → Oracle → Sys × List Ev
  | [], s, _ => (s, [])
  | op :: ops, s, o =>
    let r := runOp op s o
    let r' := runOps ops r.1 o
    (r'.1, r.2 ++ r'.2)

/-- Predicate on one event: it is not a STOP decoder-command issued while
input buffers were still queued. -/
def evStopSafe : Ev → Bool
  | Ev.decoderCmd false q => q == 0
  | _ => true

/-- Drain safety of a trace: every DECODER_CMD STOP in it was issued with an
empty input queue. -/
def stopSafe (evs : List Ev) : Bool := evs.all evStopSafe

/-- Predicate on one event: it is not a decoder-command ioctl at all. -/
def evNoCmd : Ev → Bool
  | Ev.decoderCmd _ _ => false
  | _ => true

/-- Trace with no decoder-command ioctl. -/
def noCmd (evs : List Ev) : Bool := evs.all evNoCmd

/-- Event that delivers a completion to the drain callback, either run
synchronously or posted to the sequence. -/
def isDrainDelivery : Ev → Bool
  | Ev.cbRun DecodeCB.drainDone _ => true
  | Ev.cbPosted DecodeCB.drainDone _ => true
  | _ => false

/-- Number of completions a trace delivers to the drain callback. -/
def drainDeliveries (evs : List Ev) : Nat := evs.countP isDrainDelivery

/-- Number of places of the decoder state that still hold the drain callback:
queued requests carrying it, pending decode callbacks carrying it, and
mDrainCb. -/
def pendingDrainCount (d : DecState) : Nat :=
  d.mDecodeRequests.countP (fun r => r.decodeCb == DecodeCB.drainDone) +
  (d.mPendingDecodeCbs.countP (fun kv => kv.2 == DecodeCB.drainDone) +
   (match d.mDrainCb with
    | some DecodeCB.drainDone => 1
    | _ => 0))

/-! Concrete states used by the counterexamples and witnesses. -/

/-- Oracle whose external calls all succeed and parse nothing. -/
def oracle0 : Oracle where
  decoderCmdOk := fun _ => true
  planeSize := 1048576
  qbufInOk := fun _ => true
  qbufOutOk := fun _ => true
  startPollingOk := true
  poolFetchAccepted := true
  parsedAspects := none
  configStatus := C2Status.C2_OK
  queriedAspects := none
  alive := true
  blockPoolStatus := C2Status.C2_OK
  poolCreateOk := true
  resChangePending := false
  gFmt := none
  gCtrlMinBuffers := none
  setupOutputFormatOk := true
  gFmtAdjusted := none
  allocOutputCount := fun n => n
  streamonOutputOk := true
  gSelection := none
  gCrop := none

/-- A plain work item: one input buffer, one worklet, no flags, index 5. -/
def w0 : C2Work where
  input := { flags := 0, ordinal := ⟨5, 100⟩, buffers := [some ⟨0, 10⟩] }
  worklets := [{ output := { flags := 0, ordinal := ⟨5, 100⟩, buffers := [] } }]
  result := C2Status.C2_OK
  workletsProcessed := 0

/-- Component state holding w0 at the decoder, with a listener installed. -/
def comp0 : CompState where
  componentState := CState.RUNNING
  mListener := some 1
  mPendingWorks := []
  mWorksAtDecoder := [(5, w0)]
  mOutputBitstreamIds := []
  mIsDraining := false
  mIsSecure := false
  codec := VideoCodec.H264
  mCurrentColorAspects := none
  mPendingColorAspectsChange := false
  mPendingColorAspectsChangeFrameIndex := 0

/-- Running component with a listener and nothing in flight. -/
def compRun : CompState :=
  { comp0 with mWorksAtDecoder := [] }

/-- Idle decoder with the 16 input buffers free and no output queue. -/
def dec0 : DecState where
  state := DecoderState.Idle
  mDecodeRequests := []
  mPendingDecodeCbs := []
  mDrainCb := none
  inputQueued := 0
  outputAllocated := 0
  outputQueuedIds := []
  outputStreaming := false
  mFrameAtDevice := []
  mBlockIdToV4L2Id := []
  mVideoFramePool := false
  mMinNumOutputBuffers := 12
  mCodedSize := ⟨0, 0⟩
  mVisibleRect := ⟨0, 0, 0, 0⟩

/-- Combined state: running component, idle decoder. -/
def sys0 : Sys := ⟨compRun, dec0⟩

/-- Combined state with one work at the decoder and the decoder decoding with
an empty input queue (its buffer already dequeued). -/
def sysDecoding : Sys := ⟨comp0, { dec0 with state := DecoderState.Decoding }⟩

/-- A malformed work: two worklets. -/
def wBad : C2Work :=
  { w0 with worklets := w0.worklets ++ w0.worklets }

/-- An EOS work whose input is released and whose output buffer is present. -/
def wEOSdone : C2Work where
  input := { flags := FLAG_END_OF_STREAM, ordinal := ⟨4, 40⟩, buffers := [none] }
  worklets := [{ output := { flags := 0, ordinal := ⟨4, 40⟩, buffers := [⟨7, none⟩] } }]
  result := C2Status.C2_OK
  workletsProcessed := 0

/-- A finished non-EOS work (input released, output returned). -/
def wDone : C2Work where
  input := { flags := 0, ordinal := ⟨5, 100⟩, buffers := [none] }
  worklets := [{ output := { flags := 0, ordinal := ⟨5, 100⟩, buffers := [⟨7, none⟩] } }]
  result := C2Status.C2_OK
  workletsProcessed := 0

/-- Draining component with exactly one work left at the decoder. -/
def compDraining1 : CompState :=
  { comp0 with mIsDraining := true, mWorksAtDecoder := [(5, wDone)] }

/-- The oversized resolution of spec scenario S5. -/
def size8k : USize := ⟨8192, 8192⟩

/-- Events that the component-layer reporting functions may emit: listener
callbacks and the posted pump task. -/
def evListenerOnly : Ev → Bool
  | Ev.workDone _ => true
  | Ev.errorNb _ => true
  | Ev.postPumpPending => true
  | _ => false

/-- Trace made only of listener callbacks and posted pump tasks. -/
def listenerOnly (evs : List Ev) : Bool := evs.all evListenerOnly

/-! Theorems. -/

/-- Claim C4, counterexample: an EOS-flagged work whose input is released and
whose output buffer is present satisfies the claim's right-hand side, yet
isWorkDone returns false — the EOS exception is applied inside the done-check
itself, contrary to the claim. -/
theorem isWorkDone_eos_counterexample :
    wEOSdone.input.buffers.head? = some none ∧
    (workletOutput wEOSdone).buffers ≠ [] ∧
    isWorkDone wEOSdone = false := by decide

/-- Claim C4 (amended): isWorkDone returns true iff the work is NOT
EOS-flagged, its input buffer is released, and either an output buffer is
present, or the work is CODEC_CONFIG, or DROP_FRAME is set; in addition,
reportWorkIfFinished applies its own EOS guard, returning false without
reporting whenever the component is draining with exactly one work left at
the decoder. -/
theorem isWorkDone_characterization (w : C2Work) (s : CompState) (bid : Nat) :
    (isWorkDone w = true ↔
      (w.input.flags &&& FLAG_END_OF_STREAM = 0 ∧
       w.input.buffers.head? = some none ∧
       ((workletOutput w).buffers ≠ [] ∨
        w.input.flags &&& FLAG_CODEC_CONFIG ≠ 0 ∨
        (workletOutput w).flags &&& FLAG_DROP_FRAME ≠ 0))) ∧
    (s.mIsDraining = true → s.mWorksAtDecoder.length = 1 →
      V4L2DecodeComponent.reportWorkIfFinished s bid = (s, false, [])) := by
  constructor
  · unfold isWorkDone
    by_cases h : w.input.flags &&& FLAG_END_OF_STREAM ≠ 0
    · simp [h]
    · push_neg at h
      rcases hb : (workletOutput w).buffers with _ | ⟨x, xs⟩ <;>
        simp [h, hb, List.isEmpty]
  · intro h1 h2
    unfold V4L2DecodeComponent.reportWorkIfFinished
    simp [h1, h2]

/-- Claim C4, witness: the characterization applied to a concrete finished
work and a concrete draining state with one work left. -/
theorem isWorkDone_characterization_witness :
    (isWorkDone wDone = true ↔
      (wDone.input.flags &&& FLAG_END_OF_STREAM = 0 ∧
       wDone.input.buffers.head? = some none ∧
       ((workletOutput wDone).buffers ≠ [] ∨
        wDone.input.flags &&& FLAG_CODEC_CONFIG ≠ 0 ∨
        (workletOutput wDone).flags &&& FLAG_DROP_FRAME ≠ 0))) ∧
    V4L2DecodeComponent.reportWorkIfFinished compDraining1 5 = (compDraining1, false, []) :=
  ⟨(isWorkDone_characterization wDone compDraining1 5).1,
   (isWorkDone_characterization wDone compDraining1 5).2 (by decide) (by decide)⟩

/-- Claim C3, counterexample: while RUNNING with may_block = C2_MAY_BLOCK and
a non-null listener, setListener_vb returns BAD_STATE, not OK — the claim's
"succeeds for any listener argument" is false. -/
theorem setListener_running_counterexample :
    (V4L2DecodeComponent.setListener_vb compRun (some 7) true).2 = C2Status.C2_BAD_STATE ∧
    (V4L2DecodeComponent.setListener_vb compRun (some 7) true).2 ≠ C2Status.C2_OK := by
  decide

/-- Claim C3 (amended): while RUNNING, a non-null listener is rejected with
BAD_STATE regardless of may_block; a null listener returns BLOCKING when
may_block ≠ C2_MAY_BLOCK and OK (installing the null listener) when
may_block = C2_MAY_BLOCK. -/
theorem setListener_while_running (s : CompState) (listener : Option Nat) (mayBlock : Bool)
    (hrun : s.componentState = CState.RUNNING) :
    (listener ≠ none →
      V4L2DecodeComponent.setListener_vb s listener mayBlock = (s, C2Status.C2_BAD_STATE)) ∧
    (listener = none → mayBlock = false →
      V4L2DecodeComponent.setListener_vb s listener mayBlock = (s, C2Status.C2_BLOCKING)) ∧
    (listener = none → mayBlock = true →
      V4L2DecodeComponent.setListener_vb s listener mayBlock =
        ({ s with mListener := none }, C2Status.C2_OK)) := by
  unfold V4L2DecodeComponent.setListener_vb
  refine ⟨fun h => ?_, fun h h' => ?_, fun h h' => ?_⟩ <;> simp [hrun, h, *]

/-- Claim C3, witness: the amended behavior at concrete inputs — a non-null
listener is rejected with BAD_STATE and a null listener with may_block is
installed with OK. -/
theorem setListener_while_running_witness :
    V4L2DecodeComponent.setListener_vb compRun (some 7) true = (compRun, C2Status.C2_BAD_STATE) ∧
    V4L2DecodeComponent.setListener_vb compRun none true =
      ({ compRun with mListener := none }, C2Status.C2_OK) :=
  ⟨(setListener_while_running compRun (some 7) true rfl).1 (by decide),
   (setListener_while_running compRun none true rfl).2.2 rfl rfl⟩

/-- Claim C2, counterexample: queueTask on a work with two worklets reports it
with CORRUPTED but leaves the component state RUNNING — no transition to
Error takes place. -/
theorem invalid_work_no_error_transition :
    (V4L2DecodeComponent.queueTask sys0 oracle0 wBad).1.comp.componentState = CState.RUNNING ∧
    CState.RUNNING ≠ CState.ERROR ∧
    (V4L2DecodeComponent.queueTask sys0 oracle0 wBad).2 =
      [Ev.workDone [{ wBad with result := C2Status.C2_CORRUPTED }]] := by
  decide

/-- Claim C2 (amended): a work submitted via queueTask whose worklet count is
not exactly 1 or whose input-buffer count exceeds 1 is reported to the
listener with result CORRUPTED, and the whole system state — in particular
the component state — is left unchanged (no transition to Error). -/
theorem invalid_work_reported_corrupted (s : Sys) (o : Oracle) (w : C2Work)
    (hbad : w.worklets.length ≠ 1 ∨ 1 < w.input.buffers.length)
    (hl : s.comp.mListener ≠ none) :
    V4L2DecodeComponent.queueTask s o w =
      (s, [Ev.workDone [{ w with result := C2Status.C2_CORRUPTED }]]) := by
  unfold V4L2DecodeComponent.queueTask
  rw [if_pos hbad]
  unfold V4L2DecodeComponent.reportWork
  obtain ⟨l, hl'⟩ := Option.ne_none_iff_exists'.mp hl
  simp [hl']

/-- Claim C2, witness: the amended claim applied to the concrete malformed
work wBad. -/
theorem invalid_work_reported_corrupted_witness :
    V4L2DecodeComponent.queueTask sys0 oracle0 wBad =
      (sys0, [Ev.workDone [{ wBad with result := C2Status.C2_CORRUPTED }]]) :=
  invalid_work_reported_corrupted sys0 oracle0 wBad (by decide) (by decide)

/-- Helper: the full coded-size rectangle contains itself. -/
theorem rectContains_full_self (c : USize) :
    rectContains (fullRect c) (fullRect c) = true := by
  simp [rectContains, fullRect]

/-- Helper: whatever rectangle the device reports, the validated rectangle is
contained in the coded-size rectangle. -/
theorem checkRect_contained (c : USize) (vr : V4L2RectT) :
    rectContains (fullRect c) (checkRect c vr) = true := by
  unfold checkRect
  by_cases h : rectContains (fullRect c) ⟨vr.left, vr.top, vr.left + (vr.width : Int),
      vr.top + (vr.height : Int)⟩ = true
  · simp only [h, not_true_eq_false, if_false]
    split
    · exact rectContains_full_self c
    · exact h
  · simp only [Bool.not_eq_true] at h
    simp [h, rectContains_full_self c]

/-- Claim C9: getVisibleRect returns the validated compose rectangle from
G_SELECTION when that ioctl succeeds, otherwise the validated crop rectangle
from G_CROP, otherwise the full coded-size rectangle; validation replaces a
rectangle that is empty or not contained in the coded size by the full
coded-size rectangle — hence the result is always contained in
Rect(codedSize.width, codedSize.height). -/
theorem getVisibleRect_policy (codedSize : USize) (sel crop : Option V4L2RectT) :
    (∀ vr, sel = some vr →
      getVisibleRect codedSize sel crop = checkRect codedSize vr) ∧
    (sel = none → ∀ vr, crop = some vr →
      getVisibleRect codedSize sel crop = checkRect codedSize vr) ∧
    (sel = none → crop = none →
      getVisibleRect codedSize sel crop = fullRect codedSize) ∧
    (∀ vr, checkRect codedSize vr = fullRect codedSize ∨
      (rectContains (fullRect codedSize) (checkRect codedSize vr) = true ∧
       rectIsEmpty (checkRect codedSize vr) = false)) ∧
    rectContains (fullRect codedSize) (getVisibleRect codedSize sel crop) = true := by
  refine ⟨?_, ?_, ?_, ?_, ?_⟩
  · intro vr h
    simp [getVisibleRect, h]
  · intro h vr h'
    simp [getVisibleRect, h, h']
  · intro h h'
    simp [getVisibleRect, h, h']
  · intro vr
    unfold checkRect
    dsimp only
    by_cases hcont : rectContains (fullRect codedSize)
        ⟨vr.left, vr.top, vr.left + (vr.width : Int), vr.top + (vr.height : Int)⟩ = true
    · by_cases hemp : rectIsEmpty
          ⟨vr.left, vr.top, vr.left + (vr.width : Int), vr.top + (vr.height : Int)⟩ = true
      · simp [hcont, hemp]
      · right
        simp [hcont, hemp]
    · left
      simp [hcont]
  · cases sel with
    | some vr => simpa [getVisibleRect] using checkRect_contained codedSize vr
    | none =>
      cases crop with
      | some vr => simpa [getVisibleRect] using checkRect_contained codedSize vr
      | none => simpa [getVisibleRect] using rectContains_full_self codedSize

/-- Claim C9, witness: the policy applied to a concrete coded size with a
successful G_SELECTION answer. -/
theorem getVisibleRect_policy_witness :
    getVisibleRect ⟨640, 360⟩ (some ⟨0, 0, 640, 360⟩) none =
      checkRect ⟨640, 360⟩ ⟨0, 0, 640, 360⟩ ∧
    rectContains (fullRect ⟨640, 360⟩) (getVisibleRect ⟨640, 360⟩ (some ⟨0, 0, 640, 360⟩) none) =
      true :=
  ⟨(getVisibleRect_policy ⟨640, 360⟩ (some ⟨0, 0, 640, 360⟩) none).1 ⟨0, 0, 640, 360⟩ rfl,
   (getVisibleRect_policy ⟨640, 360⟩ (some ⟨0, 0, 640, 360⟩) none).2.2.2.2⟩

/-- Claim C8: a frame-pool request whose resolution exceeds the 4096×4096
area limit yields no pool, puts the component in the ERROR state, and — when
the component was not already in error and a listener is installed — reports
BadValue through onError. -/
theorem oversized_frame_pool_request (s : CompState) (o : Oracle) (size : USize) (n : Nat)
    (halive : o.alive = true)
    (harea : kMaximumSupportedArea < size.width * size.height) :
    (V4L2DecodeComponent.getVideoFramePool s o size n).2.1 = none ∧
    (V4L2DecodeComponent.getVideoFramePool s o size n).1.componentState = CState.ERROR ∧
    (s.componentState ≠ CState.ERROR → s.mListener ≠ none →
      (V4L2DecodeComponent.getVideoFramePool s o size n).2.2 =
        [Ev.errorNb C2Status.C2_BAD_VALUE]) := by
  unfold V4L2DecodeComponent.getVideoFramePool
  rw [if_neg (by simp [halive]), if_pos harea]
  unfold V4L2DecodeComponent.reportError
  by_cases hE : s.componentState = CState.ERROR
  · simp [hE]
  · rcases hL : s.mListener with _ | l <;> simp [hE, hL]

/-- Claim C8, witness: the 8192×8192 source-change of scenario S5 is rejected
with BadValue and the component transitions to ERROR. -/
theorem oversized_frame_pool_request_witness :
    (V4L2DecodeComponent.getVideoFramePool compRun oracle0 size8k 10).2.1 = none ∧
    (V4L2DecodeComponent.getVideoFramePool compRun oracle0 size8k 10).1.componentState =
      CState.ERROR ∧
    (V4L2DecodeComponent.getVideoFramePool compRun oracle0 size8k 10).2.2 =
      [Ev.errorNb C2Status.C2_BAD_VALUE] := by
  have h := oversized_frame_pool_request compRun oracle0 size8k 10 (by decide) (by decide)
  exact ⟨h.1, h.2.1, h.2.2 (by decide) (by decide)⟩

/-- Helper: erasing a different key does not change a lookup. -/
theorem alLookup_alErase_ne {α : Type} (l : List (Nat × α)) (x bid : Nat) (h : x ≠ bid) :
    alLookup (alErase l x) bid = alLookup l bid := by
  induction l with
  | nil => rfl
  | cons kv rest ih =>
    obtain ⟨k, v⟩ := kv
    by_cases hk : k = x
    · subst hk
      have hkb : k ≠ bid := h
      simp [alErase, alLookup, hkb]
    · simp [alErase, alLookup, hk]
      split <;> simp [ih]

/-- Helper: updating a present key makes its lookup the new value. -/
theorem alLookup_alUpdate {α : Type} (l : List (Nat × α)) (bid : Nat) (w0' w : α)
    (h : alLookup l bid = some w0') :
    alLookup (alUpdate l bid w) bid = some w := by
  induction l with
  | nil => simp [alLookup] at h
  | cons kv rest ih =>
    obtain ⟨k, v⟩ := kv
    by_cases hk : k = bid
    · simp [alUpdate, alLookup, hk]
    · simp only [alLookup, hk, if_false] at h
      simp [alUpdate, alLookup, hk, ih h]

/-- Helper: reportWorkIfFinished on a present but unfinished work is a no-op
returning false. -/
theorem reportWorkIfFinished_not_done (s : CompState) (bid : Nat) (w' : C2Work)
    (h : alLookup s.mWorksAtDecoder bid = some w') (hd : isWorkDone w' = false) :
    V4L2DecodeComponent.reportWorkIfFinished s bid = (s, false, []) := by
  unfold V4L2DecodeComponent.reportWorkIfFinished
  split
  · rfl
  · rw [h]
    simp [hd]

/-- Helper: reportWorkIfFinished of a distinct id leaves the binding of bid
untouched. -/
theorem reportWorkIfFinished_preserves (s : CompState) (x bid : Nat) (hx : x ≠ bid) :
    alLookup (V4L2DecodeComponent.reportWorkIfFinished s x).1.mWorksAtDecoder bid =
      alLookup s.mWorksAtDecoder bid := by
  unfold V4L2DecodeComponent.reportWorkIfFinished
  split
  · rfl
  · rcases hl : alLookup s.mWorksAtDecoder x with _ | work
    · rfl
    · dsimp only
      split
      · rfl
      · simpa using alLookup_alErase_ne s.mWorksAtDecoder x bid hx

/-- Helper: the report pump never removes an unfinished work, and its id is
never popped off the output queue. -/
theorem pumpReportLoop_preserves (bid : Nat) (w' : C2Work) (hd : isWorkDone w' = false) :
    ∀ (q : List Nat) (s : CompState),
      alLookup s.mWorksAtDecoder bid = some w' →
      alLookup (V4L2DecodeComponent.pumpReportLoop s q).1.mWorksAtDecoder bid = some w' ∧
      (bid ∈ q → bid ∈ (V4L2DecodeComponent.pumpReportLoop s q).2.1) := by
  intro q
  induction q with
  | nil =>
    intro s h
    exact ⟨h, by simp⟩
  | cons x rest ih =>
    intro s h
    by_cases hx : x = bid
    · subst hx
      rw [V4L2DecodeComponent.pumpReportLoop, reportWorkIfFinished_not_done s x w' h hd]
      exact ⟨h, fun _ => by simp⟩
    · rw [V4L2DecodeComponent.pumpReportLoop]
      have hpres := reportWorkIfFinished_preserves s x bid hx
      rw [h] at hpres
      rcases hok : (V4L2DecodeComponent.reportWorkIfFinished s x).2.1 with _ | _
      · simp only [hok, Bool.false_eq_true, if_false]
        refine ⟨hpres, fun hm => ?_⟩
        simpa using hm
      · simp only [hok, if_true]
        obtain ⟨h1, h2⟩ :=
          ih (V4L2DecodeComponent.reportWorkIfFinished s x).1 hpres
        refine ⟨h1, fun hm => ?_⟩
        rcases List.mem_cons.mp hm with hm' | hm'
        · exact absurd hm'.symm hx
        · exact h2 hm'

/-- Claim C1, counterexample: a work with clear output flags completed as
Aborted keeps DROP_FRAME clear afterwards — onDecodeDone masks the worklet's
output flags with DROP_FRAME (bitwise AND) instead of setting the bit. -/
theorem aborted_decode_drop_frame_clear :
    (alLookup (V4L2DecodeComponent.onDecodeDone comp0 5 DecodeStatus.kAborted).1.mWorksAtDecoder
        5).map (fun w => (workletOutput w).flags &&& FLAG_DROP_FRAME) = some 0 := by
  decide

/-- Claim C1 (amended): on an Aborted decode completion for a work present in
mWorksAtDecoder, onDecodeDone releases (nulls) the work's input buffer,
replaces the worklet's output flags by their bitwise AND with DROP_FRAME —
so when the prior flags were clear the DROP_FRAME bit remains clear — pushes
the bitstream id onto mOutputBitstreamIds (where it stays, the work not being
done), and runs pumpReportWork, which leaves the unfinished work at the
decoder. -/
theorem aborted_decode_masks_drop_frame (s : CompState) (bid : Nat) (w : C2Work)
    (hw : alLookup s.mWorksAtDecoder bid = some w)
    (hbuf : w.input.buffers ≠ [])
    (hflags : (workletOutput w).flags &&& FLAG_DROP_FRAME = 0)
    (hcsd : w.input.flags &&& FLAG_CODEC_CONFIG = 0)
    (hout : (workletOutput w).buffers = []) :
    ∃ w',
      alLookup (V4L2DecodeComponent.onDecodeDone s bid
          DecodeStatus.kAborted).1.mWorksAtDecoder bid = some w' ∧
      w'.input.buffers.head? = some none ∧
      (workletOutput w').flags = 0 ∧
      bid ∈ (V4L2DecodeComponent.onDecodeDone s bid
          DecodeStatus.kAborted).1.mOutputBitstreamIds := by
  have hworklets : workletOutput (releaseInput w) = workletOutput w := rfl
  set w' := setOutputFlags (releaseInput w)
      ((workletOutput (releaseInput w)).flags &&& FLAG_DROP_FRAME) with hw'
  have hwflags : (workletOutput w').flags = 0 := by
    rw [hw', hworklets, hflags]
    cases hwl : w.worklets with
    | nil =>
      simp only [setOutputFlags, releaseInput, workletOutput, hwl, List.headD_nil]
      decide
    | cons a l => simp [setOutputFlags, releaseInput, workletOutput, hwl]
  have hwbuffers : (workletOutput w').buffers = [] := by
    rw [hw', hworklets, hflags]
    cases hwl : w.worklets with
    | nil =>
      simp only [setOutputFlags, releaseInput, workletOutput, hwl, List.headD_nil]
      decide
    | cons a l =>
      have h2 : a.output.buffers = [] := by
        have := hout
        rw [workletOutput, hwl] at this
        simpa using this
      simp [setOutputFlags, releaseInput, workletOutput, hwl, h2]
  have hwinflags : w'.input.flags = w.input.flags := by
    rw [hw']
    cases hb : w.input.buffers <;> simp [setOutputFlags, releaseInput, hb]
  have hwhead : w'.input.buffers.head? = some none := by
    rw [hw']
    cases hb : w.input.buffers with
    | nil => exact absurd hb hbuf
    | cons a l => simp [setOutputFlags, releaseInput, hb]
  have hnotdone : isWorkDone w' = false := by
    unfold isWorkDone
    split
    · rfl
    · simp [hwbuffers, hwflags, hwinflags, hcsd, List.isEmpty]
  unfold V4L2DecodeComponent.onDecodeDone
  rw [hw]
  dsimp only
  rw [← hw']
  unfold V4L2DecodeComponent.pumpReportWork
  set s1 : CompState := { s with
    mWorksAtDecoder := alUpdate s.mWorksAtDecoder bid w',
    mOutputBitstreamIds := s.mOutputBitstreamIds ++ [bid] } with hs1
  have hl1 : alLookup s1.mWorksAtDecoder bid = some w' := by
    rw [hs1]
    exact alLookup_alUpdate s.mWorksAtDecoder bid w w' hw
  obtain ⟨hkeep, hmem⟩ :=
    pumpReportLoop_preserves bid w' hnotdone s1.mOutputBitstreamIds s1 hl1
  refine ⟨w', ?_, hwhead, hwflags, ?_⟩
  · simpa using hkeep
  · simp only []
    exact hmem (by rw [hs1]; simp)

/-- Claim C1, witness: the amended behavior at the concrete state comp0. -/
theorem aborted_decode_masks_drop_frame_witness :
    ∃ w',
      alLookup (V4L2DecodeComponent.onDecodeDone comp0 5
          DecodeStatus.kAborted).1.mWorksAtDecoder 5 = some w' ∧
      w'.input.buffers.head? = some none ∧
      (workletOutput w').flags = 0 ∧
      5 ∈ (V4L2DecodeComponent.onDecodeDone comp0 5
          DecodeStatus.kAborted).1.mOutputBitstreamIds :=
  aborted_decode_masks_drop_frame comp0 5 w0 (by decide) (by decide)
    (by decide) (by decide) (by decide)

/-- Helper: setting the EOS flag on the last element of a snoc list. -/
theorem setLastPendingEOS_append (l : List C2Work) (w : C2Work) :
    V4L2DecodeComponent.setLastPendingEOS (l ++ [w]) =
      l ++ [{ w with input := { w.input with
        flags := w.input.flags ||| FLAG_END_OF_STREAM } }] := by
  induction l with
  | nil => rfl
  | cons a rest ih =>
    cases rest with
    | nil => rfl
    | cons b rest' => exact congrArg (a :: ·) ih

/-- Helper: every call to V4L2Decoder::drain is visible in the trace. -/
theorem drain_entered (s : Sys) (cb : DecodeCB) (o : Oracle) :
    Ev.decDrainEntered ∈ (V4L2Decoder.drain s cb o).2 := by
  unfold V4L2Decoder.drain
  cases s.dec.state <;> simp

/-- Claim C10: when drainTask runs with mPendingWorks non-empty, it does not
call Decoder::drain and does not touch mIsDraining or the decoder; it ORs
END_OF_STREAM into the input flags of the last pending work.  When
mPendingWorks is empty and mWorksAtDecoder is non-empty, Decoder::drain is
called and mIsDraining is set.  When both are empty, drainTask has no
effect. -/
theorem drainTask_cases (s : Sys) (o : Oracle) :
    (s.comp.mPendingWorks ≠ [] →
      Ev.decDrainEntered ∉ (V4L2DecodeComponent.drainTask s o).2 ∧
      (V4L2DecodeComponent.drainTask s o).1.dec = s.dec ∧
      (V4L2DecodeComponent.drainTask s o).1.comp.mIsDraining = s.comp.mIsDraining ∧
      (V4L2DecodeComponent.drainTask s o).1.comp.mWorksAtDecoder = s.comp.mWorksAtDecoder ∧
      ∃ (l : List C2Work) (w : C2Work),
        s.comp.mPendingWorks = l ++ [w] ∧
        (V4L2DecodeComponent.drainTask s o).1.comp.mPendingWorks =
          l ++ [{ w with input := { w.input with
            flags := w.input.flags ||| FLAG_END_OF_STREAM } }]) ∧
    (s.comp.mPendingWorks = [] → s.comp.mWorksAtDecoder ≠ [] →
      Ev.decDrainEntered ∈ (V4L2DecodeComponent.drainTask s o).2 ∧
      (V4L2DecodeComponent.drainTask s o).1.comp.mIsDraining = true) ∧
    (s.comp.mPendingWorks = [] → s.comp.mWorksAtDecoder = [] →
      V4L2DecodeComponent.drainTask s o = (s, [])) := by
  refine ⟨fun hpend => ?_, fun hpend hdec => ?_, fun hpend hdec => ?_⟩
  · have hne : s.comp.mPendingWorks.isEmpty = false := by
      simpa [List.isEmpty_iff] using hpend
    have hred : V4L2DecodeComponent.drainTask s o =
        (V4L2DecodeComponent.setPendingWorks s
          (V4L2DecodeComponent.setLastPendingEOS s.comp.mPendingWorks), []) := by
      unfold V4L2DecodeComponent.drainTask
      rw [hne]
      simp
    rw [hred]
    obtain ⟨l, w, hlw⟩ : ∃ l w, s.comp.mPendingWorks = l ++ [w] :=
      ⟨_, _, (List.dropLast_append_getLast hpend).symm⟩
    refine ⟨by simp, rfl, rfl, rfl, l, w, hlw, ?_⟩
    simp [V4L2DecodeComponent.setPendingWorks, hlw, setLastPendingEOS_append]
  · have he : s.comp.mPendingWorks.isEmpty = true := by simp [hpend]
    have hne : s.comp.mWorksAtDecoder.isEmpty = false := by
      simpa [List.isEmpty_iff] using hdec
    have hred : V4L2DecodeComponent.drainTask s o =
        ({ (V4L2Decoder.drain s DecodeCB.drainDone o).1 with
            comp := { (V4L2Decoder.drain s DecodeCB.drainDone o).1.comp with
              mIsDraining := true } },
         (V4L2Decoder.drain s DecodeCB.drainDone o).2) := by
      unfold V4L2DecodeComponent.drainTask
      rw [he, hne]
      simp
    rw [hred]
    exact ⟨drain_entered s DecodeCB.drainDone o, rfl⟩
  · have he : s.comp.mPendingWorks.isEmpty = true := by simp [hpend]
    have he' : s.comp.mWorksAtDecoder.isEmpty = true := by simp [hdec]
    unfold V4L2DecodeComponent.drainTask
    rw [he, he']
    simp

/-- Claim C10, witness: drainTask on a state with an empty pending queue and a
work at the decoder calls Decoder::drain and sets mIsDraining. -/
theorem drainTask_cases_witness :
    Ev.decDrainEntered ∈ (V4L2DecodeComponent.drainTask sysDecoding oracle0).2 ∧
    (V4L2DecodeComponent.drainTask sysDecoding oracle0).1.comp.mIsDraining = true :=
  (drainTask_cases sysDecoding oracle0).2.1 rfl (by decide)

/-- Helper: setState to Error always lands in Error. -/
theorem setState_error_state (d : DecState) :
    (d.setState DecoderState.Error).state = DecoderState.Error := by
  unfold DecState.setState
  by_cases h : d.state = DecoderState.Error <;> simp [h]

/-- Helper: setState to Idle lands in Idle unless Error was latched. -/
theorem setState_idle_state (d : DecState) :
    (d.setState DecoderState.Idle).state = DecoderState.Idle ∨
    (d.setState DecoderState.Idle).state = DecoderState.Error := by
  unfold DecState.setState
  by_cases h1 : d.state = DecoderState.Idle
  · simp [h1]
  · by_cases h2 : d.state = DecoderState.Error <;> simp [h1, h2]

/-- Helper: the decoder error path latches the Error state. -/
theorem onError_state (s : Sys) :
    (V4L2Decoder.onError s).1.dec.state = DecoderState.Error := by
  unfold V4L2Decoder.onError
  exact setState_error_state s.dec

/-- Helper: the decoder flush always terminates in Idle or Error. -/
theorem flush_state (s : Sys) (o : Oracle) :
    (V4L2Decoder.flush s o).1.dec.state = DecoderState.Idle ∨
    (V4L2Decoder.flush s o).1.dec.state = DecoderState.Error := by
  unfold V4L2Decoder.flush
  by_cases h1 : s.dec.state = DecoderState.Idle
  · rw [if_pos h1]
    exact Or.inl h1
  · rw [if_neg h1]
    by_cases h2 : s.dec.state = DecoderState.Error
    · rw [if_pos h2]
      exact Or.inr h2
    · rw [if_neg h2]
      dsimp only
      split
      · exact Or.inr (onError_state _)
      · exact setState_idle_state _

/-- Helper: reportAbandonedWorks empties both pending sets. -/
theorem reportAbandonedWorks_clears (c : CompState) :
    (V4L2DecodeComponent.reportAbandonedWorks c).1.mPendingWorks = [] ∧
    (V4L2DecodeComponent.reportAbandonedWorks c).1.mWorksAtDecoder = [] := by
  unfold V4L2DecodeComponent.reportAbandonedWorks
  dsimp only
  split
  · exact ⟨rfl, rfl⟩
  · split <;> exact ⟨rfl, rfl⟩

/-- Helper: after flushTask, both work queues are empty, draining is cleared
and the decoder is Idle or Error. -/
theorem flushTask_resets (s : Sys) (o : Oracle) :
    (V4L2DecodeComponent.flushTask s o).1.comp.mPendingWorks = [] ∧
    (V4L2DecodeComponent.flushTask s o).1.comp.mWorksAtDecoder = [] ∧
    (V4L2DecodeComponent.flushTask s o).1.comp.mIsDraining = false ∧
    ((V4L2DecodeComponent.flushTask s o).1.dec.state = DecoderState.Idle ∨
     (V4L2DecodeComponent.flushTask s o).1.dec.state = DecoderState.Error) := by
  unfold V4L2DecodeComponent.flushTask
  dsimp only
  refine ⟨?_, ?_, rfl, ?_⟩
  · exact (reportAbandonedWorks_clears _).1
  · exact (reportAbandonedWorks_clears _).2
  · exact flush_state s o

/-- Helper: flushTask on a state already reset by a previous flush has no
effect and emits nothing. -/
theorem flushTask_noop (s1 : Sys) (o : Oracle)
    (h1 : s1.comp.mPendingWorks = [])
    (h2 : s1.comp.mWorksAtDecoder = [])
    (h3 : s1.comp.mIsDraining = false)
    (h4 : s1.dec.state = DecoderState.Idle ∨ s1.dec.state = DecoderState.Error) :
    V4L2DecodeComponent.flushTask s1 o = (s1, []) := by
  obtain ⟨c, d⟩ := s1
  obtain ⟨cs, lis, pw, wd, ob, dr, sec, cod, asp, pch, pfi⟩ := c
  simp only at h1 h2 h3 h4
  subst h1
  subst h2
  subst h3
  unfold V4L2DecodeComponent.flushTask V4L2Decoder.flush
    V4L2DecodeComponent.reportAbandonedWorks
  rcases h4 with h4 | h4 <;> simp [h4]

/-- Claim C7: running the component flush task twice in a row — no work
queued, completed or reported in between — makes the second run a no-op: it
emits nothing to the listener and leaves the whole state (mPendingWorks,
mWorksAtDecoder, mIsDraining, decoder state included) unchanged. -/
theorem flush_twice_noop (s : Sys) (o o' : Oracle) :
    V4L2DecodeComponent.flushTask (V4L2DecodeComponent.flushTask s o).1 o' =
      ((V4L2DecodeComponent.flushTask s o).1, []) := by
  obtain ⟨h1, h2, h3, h4⟩ := flushTask_resets s o
  exact flushTask_noop _ o' h1 h2 h3 h4

/-- Helper: listenerOnly distributes over append. -/
theorem listenerOnly_append (a b : List Ev) :
    listenerOnly (a ++ b) = (listenerOnly a && listenerOnly b) := by
  simp [listenerOnly, List.all_append]

/-- Helper: reportWork emits only listener events. -/
theorem reportWork_listenerOnly (s : CompState) (w : C2Work) :
    listenerOnly (V4L2DecodeComponent.reportWork s w).2 = true := by
  unfold V4L2DecodeComponent.reportWork
  cases s.mListener <;> simp [listenerOnly, evListenerOnly]

/-- Helper: reportError emits only listener events. -/
theorem reportError_listenerOnly (s : CompState) (e : C2Status) :
    listenerOnly (V4L2DecodeComponent.reportError s e).2 = true := by
  unfold V4L2DecodeComponent.reportError
  split
  · rfl
  · cases s.mListener <;> simp [listenerOnly, evListenerOnly]

/-- Helper: reportWorkIfFinished emits only listener events. -/
theorem reportWorkIfFinished_listenerOnly (s : CompState) (bid : Nat) :
    listenerOnly (V4L2DecodeComponent.reportWorkIfFinished s bid).2.2 = true := by
  unfold V4L2DecodeComponent.reportWorkIfFinished
  split
  · rfl
  · rcases alLookup s.mWorksAtDecoder bid with _ | w
    · rfl
    · dsimp only
      split
      · rfl
      · exact reportWork_listenerOnly _ _

/-- Helper: the report pump emits only listener events. -/
theorem pumpReportLoop_listenerOnly (q : List Nat) :
    ∀ s : CompState, listenerOnly (V4L2DecodeComponent.pumpReportLoop s q).2.2 = true := by
  induction q with
  | nil => intro s; rfl
  | cons x rest ih =>
    intro s
    rw [V4L2DecodeComponent.pumpReportLoop]
    split
    · rw [listenerOnly_append, reportWorkIfFinished_listenerOnly, ih]
      rfl
    · exact reportWorkIfFinished_listenerOnly s x

/-- Helper: pumpReportWork emits only listener events. -/
theorem pumpReportWork_listenerOnly (s : CompState) :
    listenerOnly (V4L2DecodeComponent.pumpReportWork s).2 = true :=
  pumpReportLoop_listenerOnly s.mOutputBitstreamIds s

/-- Helper: onDecodeDone emits only listener events. -/
theorem onDecodeDone_listenerOnly (s : CompState) (bid : Nat) (st : DecodeStatus) :
    listenerOnly (V4L2DecodeComponent.onDecodeDone s bid st).2 = true := by
  unfold V4L2DecodeComponent.onDecodeDone
  rcases alLookup s.mWorksAtDecoder bid with _ | w
  · rfl
  · cases st
    · dsimp only
      split <;> exact pumpReportWork_listenerOnly _
    · exact pumpReportWork_listenerOnly _
    · exact reportError_listenerOnly _ _

/-- Helper: the no-show report loop emits only listener events. -/
theorem reportIdsLoop_listenerOnly (q : List Nat) :
    ∀ s : CompState, listenerOnly (V4L2DecodeComponent.reportIdsLoop s q).2 = true := by
  induction q with
  | nil => intro s; rfl
  | cons x rest ih =>
    intro s
    rw [V4L2DecodeComponent.reportIdsLoop]
    dsimp only
    rw [listenerOnly_append, reportWorkIfFinished_listenerOnly, ih]
    rfl

/-- Helper: reportAbandonedWorks emits only listener events. -/
theorem reportAbandonedWorks_listenerOnly (s : CompState) :
    listenerOnly (V4L2DecodeComponent.reportAbandonedWorks s).2 = true := by
  unfold V4L2DecodeComponent.reportAbandonedWorks
  dsimp only
  split
  · rfl
  · split <;> simp [listenerOnly, evListenerOnly]

/-- Helper: reportEOSWork emits only listener events. -/
theorem reportEOSWork_listenerOnly (s : CompState) :
    listenerOnly (V4L2DecodeComponent.reportEOSWork s).2.2 = true := by
  unfold V4L2DecodeComponent.reportEOSWork
  rcases V4L2DecodeComponent.findEOSWork s.mWorksAtDecoder with _ | ⟨bid, w⟩
  · rfl
  · dsimp only
    rw [listenerOnly_append, reportWork_listenerOnly, Bool.and_true]
    split
    · rfl
    · exact reportAbandonedWorks_listenerOnly _

/-- Helper: onDrainDone emits only listener events. -/
theorem onDrainDone_listenerOnly (s : CompState) (st : DecodeStatus) :
    listenerOnly (V4L2DecodeComponent.onDrainDone s st).2 = true := by
  unfold V4L2DecodeComponent.onDrainDone
  cases st
  · dsimp only
    split
    · rw [listenerOnly_append, reportEOSWork_listenerOnly]
      simp [listenerOnly, evListenerOnly]
    · rw [listenerOnly_append, reportEOSWork_listenerOnly, reportError_listenerOnly]
      rfl
  · rfl
  · exact reportError_listenerOnly _ _

/-- Helper: detectNoShowFrameWorksAndReportIfFinished emits only listener
events. -/
theorem detectNoShow_listenerOnly (s : CompState) (ord : C2Ordinal) :
    listenerOnly (V4L2DecodeComponent.detectNoShowFrameWorksAndReportIfFinished s ord).2 =
      true := by
  unfold V4L2DecodeComponent.detectNoShowFrameWorksAndReportIfFinished
  exact reportIdsLoop_listenerOnly _ _

/-- Helper: onOutputFrameReady emits only listener events. -/
theorem onOutputFrameReady_listenerOnly (s : CompState) (o : Oracle) (bid blockId : Nat) :
    listenerOnly (V4L2DecodeComponent.onOutputFrameReady s o bid blockId).2 = true := by
  unfold V4L2DecodeComponent.onOutputFrameReady
  rcases alLookup s.mWorksAtDecoder bid with _ | w
  · exact reportError_listenerOnly _ _
  · dsimp only
    rw [listenerOnly_append, pumpReportWork_listenerOnly, Bool.and_true]
    split
    all_goals split
    all_goals first
      | exact detectNoShow_listenerOnly _ _
      | rfl

/-- Helper: every completion callback's trace is its own invocation event
followed by listener-only events. -/
theorem runCb_events (s : CompState) (cb : DecodeCB) (st : DecodeStatus) :
    ∃ tail, (V4L2DecodeComponent.runCb s cb st).2 = Ev.cbRun cb st :: tail ∧
      listenerOnly tail = true := by
  unfold V4L2DecodeComponent.runCb
  cases cb
  · exact ⟨_, rfl, onDecodeDone_listenerOnly _ _ _⟩
  · exact ⟨_, rfl, onDrainDone_listenerOnly _ _⟩

/-- Helper: a listener-only trace delivers nothing to the drain callback. -/
theorem drainDeliveries_zero_of_listenerOnly (evs : List Ev)
    (h : listenerOnly evs = true) : drainDeliveries evs = 0 := by
  induction evs with
  | nil => rfl
  | cons e rest ih =>
    rw [listenerOnly, List.all_cons, Bool.and_eq_true] at h
    rw [drainDeliveries, List.countP_cons]
    have h2 : isDrainDelivery e = false := by
      cases e <;> simp_all [evListenerOnly, isDrainDelivery]
    rw [h2]
    simpa [drainDeliveries] using ih h.2

/-- Helper: a listener-only trace is drain-safe. -/
theorem stopSafe_of_listenerOnly (evs : List Ev)
    (h : listenerOnly evs = true) : stopSafe evs = true := by
  induction evs with
  | nil => rfl
  | cons e rest ih =>
    rw [listenerOnly, List.all_cons, Bool.and_eq_true] at h
    rw [stopSafe, List.all_cons]
    have h2 : evStopSafe e = true := by
      cases e <;> simp_all [evListenerOnly, evStopSafe]
    have h3 := ih h.2
    rw [stopSafe] at h3
    rw [h2, h3]
    rfl

/-- Helper: deliveries made by one callback invocation. -/
theorem drainDeliveries_runCb (s : CompState) (cb : DecodeCB) (st : DecodeStatus) :
    drainDeliveries (V4L2DecodeComponent.runCb s cb st).2 =
      if cb = DecodeCB.drainDone then 1 else 0 := by
  obtain ⟨tail, heq, htail⟩ := runCb_events s cb st
  rw [heq, drainDeliveries, List.countP_cons]
  have hz := drainDeliveries_zero_of_listenerOnly tail htail
  rw [drainDeliveries] at hz
  rw [hz]
  cases cb <;> simp [isDrainDelivery]

/-- Helper: inserting a non-drain callback does not change the drain count of
the pending-callback map. -/
theorem countP_alInsert_ne {α : Type} (l : List (Nat × α)) (k : Nat) (v : α)
    (p : Nat × α → Bool) (hv : p (k, v) = false) :
    (alInsert l k v).countP p = l.countP p := by
  unfold alInsert
  split
  · rfl
  · simp [List.countP_append, List.countP_cons, hv]

/-- Helper: drain deliveries add up over concatenated traces. -/
theorem drainDeliveries_append (a b : List Ev) :
    drainDeliveries (a ++ b) = drainDeliveries a + drainDeliveries b := by
  simp [drainDeliveries, List.countP_append]

/-- Helper: setState only touches the state field. -/
theorem setState_preserves (d : DecState) (ns : DecoderState) :
    (d.setState ns).mDecodeRequests = d.mDecodeRequests ∧
    (d.setState ns).mPendingDecodeCbs = d.mPendingDecodeCbs ∧
    (d.setState ns).mDrainCb = d.mDrainCb := by
  unfold DecState.setState
  split
  · exact ⟨rfl, rfl, rfl⟩
  · split
    · exact ⟨rfl, rfl, rfl⟩
    · exact ⟨rfl, rfl, rfl⟩

/-- Helper: setState does not move any stored callback. -/
theorem pendingDrainCount_setState (d : DecState) (ns : DecoderState) :
    pendingDrainCount (d.setState ns) = pendingDrainCount d := by
  obtain ⟨h1, h2, h3⟩ := setState_preserves d ns
  rw [pendingDrainCount, pendingDrainCount, h1, h2, h3]

/-- Helper: the decoder error path delivers nothing to the drain callback. -/
theorem drainDeliveries_onError (s : Sys) :
    drainDeliveries (V4L2Decoder.onError s).2 = 0 := by
  unfold V4L2Decoder.onError
  exact drainDeliveries_zero_of_listenerOnly _ (reportError_listenerOnly _ _)

/-- Helper: the decoder error path moves no stored callback. -/
theorem pendingDrainCount_onError (s : Sys) :
    pendingDrainCount (V4L2Decoder.onError s).1.dec = pendingDrainCount s.dec := by
  unfold V4L2Decoder.onError
  exact pendingDrainCount_setState s.dec _

/-- Helper: in the Decoding state, pumpDecodeRequest runs the loop. -/
theorem pumpDecodeRequest_decoding (s : Sys) (o : Oracle)
    (h : s.dec.state = DecoderState.Decoding) :
    V4L2Decoder.pumpDecodeRequest s o =
      V4L2Decoder.pumpDecodeLoop o s.dec.mDecodeRequests s := by
  unfold V4L2Decoder.pumpDecodeRequest
  rw [if_neg]
  simp [h]

/-- Helper: the decode-request pump preserves the total count of outstanding
drain-callback completions: every drain callback it removes from the request
queue is either delivered exactly once or parked in mDrainCb. -/
theorem pumpDecodeLoop_drain_count (o : Oracle) :
    ∀ (reqs : List DecodeRequest) (s : Sys),
      (∀ r ∈ reqs, r.decodeCb = DecodeCB.drainDone → r.buffer = none) →
      s.dec.mDrainCb = none →
      drainDeliveries (V4L2Decoder.pumpDecodeLoop o reqs s).2 +
        pendingDrainCount (V4L2Decoder.pumpDecodeLoop o reqs s).1.dec =
      reqs.countP (fun r => r.decodeCb == DecodeCB.drainDone) +
        s.dec.mPendingDecodeCbs.countP (fun kv => kv.2 == DecodeCB.drainDone) := by
  intro reqs
  induction reqs with
  | nil =>
    intro s hwf hdc
    simp [V4L2Decoder.pumpDecodeLoop, V4L2Decoder.setRequests, drainDeliveries,
      pendingDrainCount, hdc]
  | cons req rest ih =>
    intro s hwf hdc
    rw [V4L2Decoder.pumpDecodeLoop]
    rcases hb : req.buffer with _ | buf <;> dsimp only
    · by_cases hq : s.dec.inputQueued > 0
      · rw [if_pos hq]
        simp [V4L2Decoder.setRequests, drainDeliveries, pendingDrainCount, hdc,
          List.countP_cons]
      · rw [if_neg hq]
        by_cases hcmd : o.decoderCmdOk false = true
        · rw [if_neg (by simp [V4L2Decoder.sendV4L2DecoderCmd, hcmd])]
          rw [drainDeliveries]
          simp only [V4L2Decoder.sendV4L2DecoderCmd, V4L2Decoder.setRequests]
          rw [pendingDrainCount_setState]
          simp only [pendingDrainCount, List.countP_cons]
          cases hcb : req.decodeCb <;>
            simp [drainDeliveries, isDrainDelivery, List.countP_cons, hdc, hcb]
          · omega
        · rw [if_pos (by simp [V4L2Decoder.sendV4L2DecoderCmd, hcmd])]
          dsimp only
          rw [drainDeliveries_append, drainDeliveries_append, drainDeliveries_runCb,
            drainDeliveries_onError, pendingDrainCount_onError]
          simp only [V4L2Decoder.sendV4L2DecoderCmd, V4L2Decoder.setRequests]
          simp only [pendingDrainCount, List.countP_cons, drainDeliveries,
            List.countP_nil, isDrainDelivery]
          cases hcb : req.decodeCb <;> simp [hdc, hcb, List.countP_cons, isDrainDelivery]
          · omega
    · by_cases hfree : kNumInputBuffers ≤ s.dec.inputQueued
      · rw [if_pos hfree]
        simp [V4L2Decoder.setRequests, drainDeliveries, pendingDrainCount, hdc,
          List.countP_cons]
      · rw [if_neg hfree]
        have hne : ¬ req.decodeCb = DecodeCB.drainDone := fun h => by
          have h2 := hwf req (List.mem_cons_self req rest) h
          rw [hb] at h2
          cases h2
        by_cases hsz : o.planeSize < buf.size
        · rw [if_pos hsz]
          rw [drainDeliveries_onError, pendingDrainCount_onError]
          simp [V4L2Decoder.setRequests, pendingDrainCount, hdc, List.countP_cons, hne]
        · rw [if_neg hsz]
          by_cases hqb : o.qbufInOk buf.id = true
          · rw [if_neg (by simp [hqb])]
            rw [ih _ (fun r hr h => hwf r (List.mem_cons_of_mem req hr) h)
                (by simp [V4L2Decoder.setRequests, hdc])]
            have hcnt := countP_alInsert_ne s.dec.mPendingDecodeCbs buf.id req.decodeCb
                (fun kv => kv.2 == DecodeCB.drainDone) (by simpa using hne)
            simp [V4L2Decoder.setRequests, hcnt, List.countP_cons, hne]
          · rw [if_pos (by simp [hqb])]
            rw [drainDeliveries_onError, pendingDrainCount_onError]
            simp [V4L2Decoder.setRequests, pendingDrainCount, hdc, List.countP_cons, hne]

/-- Claim C6: each call to Decoder::drain accounts for exactly one completion
of its callback — immediately delivered (posted with Ok in Idle, with Error
in Draining/Error, or run with Error when the STOP command fails) or stored
exactly once in the decoder (as the queued sentinel or in mDrainCb): the
number of deliveries in the call's trace plus the number of stored
occurrences afterwards exceeds the prior stored occurrences by exactly one.
In Idle the state is untouched and cb gets Ok; in Draining/Error the state is
untouched and cb gets Error; in Decoding the sentinel (null buffer, cb) is
enqueued and the request pump runs. -/
theorem drain_exactly_one_completion (s : Sys) (o : Oracle)
    (hwf : ∀ r ∈ s.dec.mDecodeRequests, r.decodeCb = DecodeCB.drainDone → r.buffer = none)
    (hnd : s.dec.state = DecoderState.Decoding → s.dec.mDrainCb = none) :
    drainDeliveries (V4L2Decoder.drain s DecodeCB.drainDone o).2 +
      pendingDrainCount (V4L2Decoder.drain s DecodeCB.drainDone o).1.dec =
      pendingDrainCount s.dec + 1 ∧
    (s.dec.state = DecoderState.Idle →
      V4L2Decoder.drain s DecodeCB.drainDone o =
        (s, [Ev.decDrainEntered, Ev.cbPosted DecodeCB.drainDone DecodeStatus.kOk])) ∧
    ((s.dec.state = DecoderState.Draining ∨ s.dec.state = DecoderState.Error) →
      V4L2Decoder.drain s DecodeCB.drainDone o =
        (s, [Ev.decDrainEntered, Ev.cbPosted DecodeCB.drainDone DecodeStatus.kError])) := by
  unfold V4L2Decoder.drain
  cases hst : s.dec.state with
  | Idle =>
    refine ⟨?_, fun _ => rfl, fun h => ?_⟩
    · simp [drainDeliveries, isDrainDelivery, List.countP_cons, Nat.add_comm]
    · rcases h with h | h <;> simp at h
  | Draining =>
    refine ⟨?_, fun h => ?_, fun _ => rfl⟩
    · simp [drainDeliveries, isDrainDelivery, List.countP_cons, Nat.add_comm]
    · simp at h
  | Error =>
    refine ⟨?_, fun h => ?_, fun _ => rfl⟩
    · simp [drainDeliveries, isDrainDelivery, List.countP_cons, Nat.add_comm]
    · simp at h
  | Decoding =>
    have hdc := hnd hst
    refine ⟨?_, fun h => ?_, fun h => ?_⟩
    · dsimp only
      rw [pumpDecodeRequest_decoding _ o (by simpa using hst)]
      have hwf' : ∀ r ∈ s.dec.mDecodeRequests ++ [(⟨none, DecodeCB.drainDone⟩ : DecodeRequest)],
          r.decodeCb = DecodeCB.drainDone → r.buffer = none := by
        intro r hr hcb
        rcases List.mem_append.mp hr with hr' | hr'
        · exact hwf r hr' hcb
        · simp only [List.mem_singleton] at hr'
          rw [hr']
      have hcount := pumpDecodeLoop_drain_count o
        (s.dec.mDecodeRequests ++ [⟨none, DecodeCB.drainDone⟩])
        { s with dec := { s.dec with
            mDecodeRequests := s.dec.mDecodeRequests ++ [⟨none, DecodeCB.drainDone⟩] } }
        hwf' hdc
      rw [drainDeliveries, List.countP_cons]
      simp only [isDrainDelivery, Bool.false_eq_true, if_false, Nat.add_zero]
      rw [show drainDeliveries = List.countP isDrainDelivery from rfl] at hcount
      rw [hcount]
      simp [List.countP_append, List.countP_cons, pendingDrainCount, hdc]
      omega
    · simp at h
    · rcases h with h | h <;> simp at h

/-- Claim C6, witness: a drain call in the Decoding state with an empty
request queue parks the callback exactly once (deliveries plus stored
occurrences go from 0 to 1). -/
theorem drain_exactly_one_completion_witness :
    drainDeliveries (V4L2Decoder.drain sysDecoding DecodeCB.drainDone oracle0).2 +
      pendingDrainCount (V4L2Decoder.drain sysDecoding DecodeCB.drainDone oracle0).1.dec =
      pendingDrainCount sysDecoding.dec + 1 :=
  (drain_exactly_one_completion sysDecoding oracle0 (by simp [sysDecoding, dec0])
    (fun _ => rfl)).1

/-- Helper: drain safety distributes over append. -/
theorem stopSafe_append (a b : List Ev) :
    stopSafe (a ++ b) = (stopSafe a && stopSafe b) := by
  simp [stopSafe, List.all_append]

/-- Helper: drain safety of the empty trace. -/
theorem stopSafe_nil : stopSafe [] = true := rfl

/-- Helper: drain safety unfolds over cons. -/
theorem stopSafe_cons (e : Ev) (l : List Ev) :
    stopSafe (e :: l) = (evStopSafe e && stopSafe l) := by
  simp [stopSafe]

/-- Helper: reportWork is drain-safe (it issues no decoder command). -/
theorem reportWork_stopSafe (s : CompState) (w : C2Work) :
    stopSafe (V4L2DecodeComponent.reportWork s w).2 = true :=
  stopSafe_of_listenerOnly _ (reportWork_listenerOnly s w)

/-- Helper: reportError is drain-safe. -/
theorem reportError_stopSafe (s : CompState) (e : C2Status) :
    stopSafe (V4L2DecodeComponent.reportError s e).2 = true :=
  stopSafe_of_listenerOnly _ (reportError_listenerOnly s e)

/-- Helper: reportWorkIfFinished is drain-safe. -/
theorem reportWorkIfFinished_stopSafe (s : CompState) (bid : Nat) :
    stopSafe (V4L2DecodeComponent.reportWorkIfFinished s bid).2.2 = true :=
  stopSafe_of_listenerOnly _ (reportWorkIfFinished_listenerOnly s bid)

/-- Helper: onOutputFrameReady is drain-safe. -/
theorem onOutputFrameReady_stopSafe (s : CompState) (o : Oracle) (bid blockId : Nat) :
    stopSafe (V4L2DecodeComponent.onOutputFrameReady s o bid blockId).2 = true :=
  stopSafe_of_listenerOnly _ (onOutputFrameReady_listenerOnly s o bid blockId)

/-- Helper: reportAbandonedWorks is drain-safe. -/
theorem reportAbandonedWorks_stopSafe (s : CompState) :
    stopSafe (V4L2DecodeComponent.reportAbandonedWorks s).2 = true :=
  stopSafe_of_listenerOnly _ (reportAbandonedWorks_listenerOnly s)

/-- Helper: any completion-callback invocation is drain-safe. -/
theorem runCb_stopSafe (s : CompState) (cb : DecodeCB) (st : DecodeStatus) :
    stopSafe (V4L2DecodeComponent.runCb s cb st).2 = true := by
  obtain ⟨tail, heq, htail⟩ := runCb_events s cb st
  rw [heq, stopSafe, List.all_cons]
  have h := stopSafe_of_listenerOnly tail htail
  rw [stopSafe] at h
  rw [h]
  simp [evStopSafe]

/-- Helper: the decoder error path is drain-safe. -/
theorem onError_stopSafe (s : Sys) :
    stopSafe (V4L2Decoder.onError s).2 = true := by
  unfold V4L2Decoder.onError
  exact stopSafe_of_listenerOnly _ (reportError_listenerOnly _ _)

/-- Helper: getVideoFramePool is drain-safe. -/
theorem getVideoFramePool_stopSafe (s : CompState) (o : Oracle) (size : USize) (n : Nat) :
    stopSafe (V4L2DecodeComponent.getVideoFramePool s o size n).2.2 = true := by
  unfold V4L2DecodeComponent.getVideoFramePool
  repeat' split
  all_goals simp [reportError_stopSafe, stopSafe_nil]

/-- Helper: tryFetchVideoFrame is drain-safe. -/
theorem tryFetchVideoFrame_stopSafe (s : Sys) (o : Oracle) :
    stopSafe (V4L2Decoder.tryFetchVideoFrame s o).2 = true := by
  unfold V4L2Decoder.tryFetchVideoFrame
  repeat' split
  all_goals simp [onError_stopSafe, stopSafe_nil, stopSafe_cons, evStopSafe]

/-- Helper: the STOP command issued by the decode-request pump is guarded by
an empty input queue, so the whole pump is drain-safe. -/
theorem pumpDecodeLoop_stopSafe (o : Oracle) :
    ∀ (reqs : List DecodeRequest) (s : Sys),
      stopSafe (V4L2Decoder.pumpDecodeLoop o reqs s).2 = true := by
  intro reqs
  induction reqs with
  | nil => intro s; rfl
  | cons req rest ih =>
    intro s
    rw [V4L2Decoder.pumpDecodeLoop]
    rcases hb : req.buffer with _ | buf <;> dsimp only
    · by_cases hq : s.dec.inputQueued > 0
      · rw [if_pos hq]; rfl
      · rw [if_neg hq]
        have hq0 : s.dec.inputQueued = 0 := by omega
        split
        · rw [stopSafe_append, stopSafe_append]
          simp [V4L2Decoder.sendV4L2DecoderCmd, V4L2Decoder.setRequests, stopSafe_nil,
            stopSafe_cons, evStopSafe, hq0, runCb_stopSafe, onError_stopSafe]
        · simp [V4L2Decoder.sendV4L2DecoderCmd, V4L2Decoder.setRequests, stopSafe_nil,
            stopSafe_cons, evStopSafe, hq0]
    · repeat' split
      all_goals simp [onError_stopSafe, ih, stopSafe_nil]

/-- Helper: pumpDecodeRequest is drain-safe. -/
theorem pumpDecodeRequest_stopSafe (s : Sys) (o : Oracle) :
    stopSafe (V4L2Decoder.pumpDecodeRequest s o).2 = true := by
  unfold V4L2Decoder.pumpDecodeRequest
  split
  · rfl
  · exact pumpDecodeLoop_stopSafe o _ _

/-- Helper: decode is drain-safe. -/
theorem decode_stopSafe (s : Sys) (buf : BitstreamBuf) (cb : DecodeCB) (o : Oracle) :
    stopSafe (V4L2Decoder.decode s buf cb o).2 = true := by
  unfold V4L2Decoder.decode
  repeat' split
  all_goals simp [pumpDecodeRequest_stopSafe, stopSafe_nil, stopSafe_cons, evStopSafe]

/-- Helper: drain is drain-safe. -/
theorem drain_stopSafe (s : Sys) (cb : DecodeCB) (o : Oracle) :
    stopSafe (V4L2Decoder.drain s cb o).2 = true := by
  unfold V4L2Decoder.drain
  cases s.dec.state <;>
    simp [stopSafe_nil, stopSafe_cons, evStopSafe, pumpDecodeRequest_stopSafe]

/-- Helper: flushCbsLoop is drain-safe. -/
theorem flushCbsLoop_stopSafe :
    ∀ (l : List (Nat × DecodeCB)) (s : Sys),
      stopSafe (V4L2Decoder.flushCbsLoop l s).2 = true := by
  intro l
  induction l with
  | nil => intro s; rfl
  | cons kv rest ih =>
    intro s
    obtain ⟨k, cb⟩ := kv
    rw [V4L2Decoder.flushCbsLoop]
    rw [stopSafe_append, runCb_stopSafe, ih]
    rfl

/-- Helper: flush is drain-safe. -/
theorem flush_stopSafe (s : Sys) (o : Oracle) :
    stopSafe (V4L2Decoder.flush s o).2 = true := by
  unfold V4L2Decoder.flush
  by_cases h1 : s.dec.state = DecoderState.Idle
  · rw [if_pos h1]; rfl
  · rw [if_neg h1]
    by_cases h2 : s.dec.state = DecoderState.Error
    · rw [if_pos h2]; rfl
    · rw [if_neg h2]
      dsimp only
      cases hdc : (V4L2Decoder.flushCbsLoop s.dec.mPendingDecodeCbs s).1.dec.mDrainCb
      all_goals repeat' split
      all_goals simp [stopSafe_append, flushCbsLoop_stopSafe, runCb_stopSafe,
        tryFetchVideoFrame_stopSafe, onError_stopSafe, stopSafe_nil]

/-- Helper: onVideoFrameReady is drain-safe. -/
theorem onVideoFrameReady_stopSafe (s : Sys) (b : Option Nat) (o : Oracle) :
    stopSafe (V4L2Decoder.onVideoFrameReady s b o).2 = true := by
  unfold V4L2Decoder.onVideoFrameReady
  cases b with
  | none => exact onError_stopSafe _
  | some blockId =>
    dsimp only
    cases heq : alLookup s.dec.mBlockIdToV4L2Id blockId
    all_goals repeat' split
    all_goals simp [onError_stopSafe, tryFetchVideoFrame_stopSafe, stopSafe_nil]

/-- Helper: changeResolution is drain-safe (it issues no decoder command). -/
theorem changeResolution_stopSafe (s : Sys) (o : Oracle) :
    stopSafe (V4L2Decoder.changeResolution s o).2.2 = true := by
  unfold V4L2Decoder.changeResolution
  repeat'
    first
      | rfl
      | split
      | simp [stopSafe_append, getVideoFramePool_stopSafe,
          tryFetchVideoFrame_stopSafe, stopSafe_nil]

/-- Helper: the input-dequeue loop is drain-safe. -/
theorem serviceInLoop_stopSafe :
    ∀ (l : List InDqEntry) (s : Sys),
      stopSafe (V4L2Decoder.serviceInLoop l s).2.2.2 = true := by
  intro l
  induction l with
  | nil => intro s; rfl
  | cons e rest ih =>
    intro s
    cases e
    all_goals rw [V4L2Decoder.serviceInLoop]
    all_goals repeat'
      first
        | rfl
        | split
        | simp [stopSafe_append, onError_stopSafe, runCb_stopSafe, ih, stopSafe_nil]

/-- Helper: the output-dequeue loop is drain-safe: the only decoder command it
issues is START. -/
theorem serviceOutLoop_stopSafe (o : Oracle) :
    ∀ (l : List OutDqEntry) (s : Sys),
      stopSafe (V4L2Decoder.serviceOutLoop o l s).2.2.2 = true := by
  intro l
  induction l with
  | nil => intro s; rfl
  | cons e rest ih =>
    intro s
    cases e
    all_goals rw [V4L2Decoder.serviceOutLoop]
    all_goals repeat'
      first
        | rfl
        | split
        | simp [stopSafe_append, onError_stopSafe, runCb_stopSafe, ih,
            onOutputFrameReady_stopSafe, V4L2Decoder.sendV4L2DecoderCmd, stopSafe_nil,
            stopSafe_cons, evStopSafe]

/-- Helper: serviceDeviceTask is drain-safe. -/
theorem serviceDeviceTask_stopSafe (s : Sys) (event : Bool) (inDq : List InDqEntry)
    (outDq : List OutDqEntry) (o : Oracle) :
    stopSafe (V4L2Decoder.serviceDeviceTask s event inDq outDq o).2 = true := by
  unfold V4L2Decoder.serviceDeviceTask
  repeat'
    first
      | rfl
      | split
      | simp [stopSafe_append, serviceInLoop_stopSafe, serviceOutLoop_stopSafe,
          changeResolution_stopSafe, onError_stopSafe, stopSafe_nil, stopSafe_cons,
          evStopSafe]

/-- Helper: the decode part of one pending-work iteration is drain-safe. -/
theorem pumpDecodePart_stopSafe (o : Oracle) (w : C2Work) (bid : Nat) (s : Sys) :
    stopSafe (V4L2DecodeComponent.pumpDecodePart o w bid s).2.2 = true := by
  unfold V4L2DecodeComponent.pumpDecodePart
  by_cases h1 : w.input.buffers.head? = some none
  · rw [if_pos h1]; rfl
  · rw [if_neg h1]
    dsimp only
    by_cases h2 : w.input.flags &&& FLAG_CODEC_CONFIG ≠ 0 ∧ s.comp.mIsSecure = false ∧
        s.comp.codec = VideoCodec.H264
    · rw [if_pos h2]
      cases hasp : o.parsedAspects
      · simp [stopSafe_append, decode_stopSafe, stopSafe_nil]
      · dsimp only
        by_cases h3 : o.configStatus ≠ C2Status.C2_OK
        · simp [h3, reportError_stopSafe]
        · simp [h3, stopSafe_append, decode_stopSafe, stopSafe_nil]
    · rw [if_neg h2]
      simp [stopSafe_append, decode_stopSafe, stopSafe_nil]

/-- Helper: one pending-work iteration is drain-safe. -/
theorem pumpPendingOne_stopSafe (o : Oracle) (w : C2Work) (s : Sys) :
    stopSafe (V4L2DecodeComponent.pumpPendingOne o w s).2.2 = true := by
  unfold V4L2DecodeComponent.pumpPendingOne
  dsimp only
  split
  · exact pumpDecodePart_stopSafe o w _ _
  · repeat'
      first
        | split
        | simp [stopSafe_append, pumpDecodePart_stopSafe, drain_stopSafe,
            reportWorkIfFinished_stopSafe, stopSafe_nil]

/-- Helper: the pending-work pump is drain-safe. -/
theorem pumpPendingLoop_stopSafe (o : Oracle) :
    ∀ (ws : List C2Work) (s : Sys),
      stopSafe (V4L2DecodeComponent.pumpPendingLoop o ws s).2 = true := by
  intro ws
  induction ws with
  | nil => intro s; rfl
  | cons w rest ih =>
    intro s
    rw [V4L2DecodeComponent.pumpPendingLoop]
    repeat'
      first
        | split
        | simp [stopSafe_append, pumpPendingOne_stopSafe, ih, stopSafe_nil]

/-- Helper: pumpPendingWorks is drain-safe. -/
theorem pumpPendingWorks_stopSafe (s : Sys) (o : Oracle) :
    stopSafe (V4L2DecodeComponent.pumpPendingWorks s o).2 = true := by
  unfold V4L2DecodeComponent.pumpPendingWorks
  split
  · rfl
  · exact pumpPendingLoop_stopSafe o _ _

/-- Helper: queueTask is drain-safe. -/
theorem queueTask_stopSafe (s : Sys) (o : Oracle) (w : C2Work) :
    stopSafe (V4L2DecodeComponent.queueTask s o w).2 = true := by
  unfold V4L2DecodeComponent.queueTask
  repeat'
    first
      | rfl
      | split
      | simp [reportWork_stopSafe, reportError_stopSafe, pumpPendingWorks_stopSafe,
          stopSafe_nil]

/-- Helper: flushTask is drain-safe. -/
theorem flushTask_stopSafe (s : Sys) (o : Oracle) :
    stopSafe (V4L2DecodeComponent.flushTask s o).2 = true := by
  unfold V4L2DecodeComponent.flushTask
  rw [stopSafe_append, flush_stopSafe, reportAbandonedWorks_stopSafe]
  rfl

/-- Helper: drainTask is drain-safe. -/
theorem drainTask_stopSafe (s : Sys) (o : Oracle) :
    stopSafe (V4L2DecodeComponent.drainTask s o).2 = true := by
  unfold V4L2DecodeComponent.drainTask
  repeat' split
  all_goals simp [drain_stopSafe, stopSafe_nil]

/-- Helper: every single task on the decoder sequence is drain-safe. -/
theorem runOp_stopSafe (op : SysOp) (s : Sys) (o : Oracle) :
    stopSafe (runOp op s o).2 = true := by
  cases op with
  | queueOne w => exact queueTask_stopSafe s o w
  | drainWithEOS => exact drainTask_stopSafe s o
  | flushComp => exact flushTask_stopSafe s o
  | pumpPending => exact pumpPendingWorks_stopSafe s o
  | pumpDecode => exact pumpDecodeRequest_stopSafe s o
  | tryFetch => exact tryFetchVideoFrame_stopSafe s o
  | serviceDevice event inDq outDq => exact serviceDeviceTask_stopSafe s event inDq outDq o
  | frameReady b => exact onVideoFrameReady_stopSafe s b o
  | postedCb cb st => exact runCb_stopSafe s.comp cb st

/-- Claim C5: in every execution of the system — any sequence of tasks on the
decoder sequence, from any state, with any device answers — every
VIDIOC_DECODER_CMD STOP ioctl in the trace is issued at a moment when the
input queue's queued-buffer count is zero: the drain sentinel at the head of
the decode-request queue is not processed while any input buffer remains
queued. -/
theorem decoder_stop_only_when_input_empty (ops : List SysOp) (s : Sys) (o : Oracle) :
    stopSafe (runOps ops s o).2 = true := by
  induction ops generalizing s with
  | nil => rfl
  | cons op rest ih =>
    rw [runOps]
    dsimp only
    rw [stopSafe_append, runOp_stopSafe, ih]
    rfl

end V4L2
